import Mathlib

/-!
# A shallow embedding of the pyghmi IPMI session core

This file embeds, as executable Lean definitions, the parts of
`pyghmi/ipmi/private/session.py` and `pyghmi/ipmi/console.py` that the
checked claims are about: the SOL inbound handler of `Console`, and the
`Session` send path (`_make_ipmi_payload`, `send_payload`, `_xmit_packet`),
reply parsing (`_parse_ipmi_payload`), the retry timer (`_timedout`),
keepalives, logout, and the two inbound datagram handlers
(`_handle_ipmi_packet` for IPMI 1.5 and `_handle_ipmi2_packet` for RMCP+).

Bytes are `Nat`s in `[0, 255]`, byte strings and Python byte lists are
`List Nat`.  Mutation of the `self` object becomes explicit state passing
on `SessionState` / `ConsoleState`.  Interactions with the process-wide
registries, the socket, and caller-supplied callbacks become `Effect`
values returned alongside the new state, in program order.  Library
cryptography (`hashlib.md5`, `HMAC`/`SHA`, `AES`), `os.urandom`, and
`random.random` draws are injected through an `Env` record, as are the
dependency-injected constant tables that `pyghmi.ipmi.private.constants`
provides.  Python exceptions (KeyError on a missing taboo entry,
`IpmiException`, NotImplementedError) make the affected functions return
`Option`, with `none` for a raised exception.
-/

namespace Pyghmi

/-! ## Byte helpers -/

/-- `struct.pack("<I", n)` as a list of four bytes, least significant first. -/
def le32 (n : Nat) : List Nat :=
  [n % 256, n / 256 % 256, n / 65536 % 256, n / 16777216 % 256]

/-- `struct.unpack("<I", l[i:i+4])[0]`: read four bytes at offset `i` as a
little-endian 32-bit integer (missing bytes read as 0). -/
def unle32 (l : List Nat) (i : Nat) : Nat :=
  l.getD i 0 + l.getD (i + 1) 0 * 256 + l.getD (i + 2) 0 * 65536
    + l.getD (i + 3) 0 * 16777216

/-- `Session._checksum`: two's-complement checksum over the bytes,
`((sum ^ 0xff) + 1) & 0xff`. -/
def checksum (data : List Nat) : Nat :=
  ((data.sum ^^^ 0xff) + 1) &&& 0xff

/-- `_aespad`: the IPMI table 13-20 AES-CBC pad — append bytes `1, 2, …, n`
then the pad-length byte `n`, with `n` chosen so the padded length (pad
length field included) is a multiple of 16. -/
def aespad (data : List Nat) : List Nat :=
  let currlen := data.length + 1
  let neededpad0 := currlen % 16
  let neededpad := if neededpad0 ≠ 0 then 16 - neededpad0 else 0
  data ++ (List.range neededpad).map (· + 1) ++ [neededpad]

/-- Bytes of an ASCII message, for the console notices printed by
`Console._print_data` (Python 2 strings are byte strings). -/
def asciiBytes (s : String) : List Nat := s.data.map Char.toNat

/-! ## Console (SOL channel) -/

/-- The per-`Console` attributes mutated by the SOL code paths. -/
structure ConsoleState where
  remseq : Nat
  myseq : Nat
  lastsize : Nat
  sendbreak : Nat
  ackedcount : Nat
  ackedseq : Nat
  retriedpayload : Nat
  pendingoutput : List Nat
  awaitingack : Bool
  lastpayload : List Nat
  lasttextsize : Nat
  deriving Repr, DecidableEq

/-- An observable action of the console: a `_print_data` delivery to the
consumer sink, or a `send_payload` on the underlying IPMI session
(payload bytes, payload type, retry flag). -/
inductive ConsEffect where
  | printData (data : List Nat)
  | sendPayload (payload : List Nat) (ptype : Nat) (retry : Bool)
  deriving Repr, DecidableEq

/-- `Console._sendpendingoutput`: advance `myseq` (4-bit, skipping 0),
frame the pending bytes behind the `{myseq, ackedseq, ackedseq, sendbreak}`
header, remember the frame in `lastpayload`, mark `awaitingack`, and send
it as payload type 1. -/
def sendpendingoutput (cs : ConsoleState) : ConsoleState × List ConsEffect :=
  let myseq0 := (cs.myseq + 1) &&& 0xf
  let myseq := if myseq0 = 0 then 1 else myseq0
  let payload := [myseq, cs.ackedseq, cs.ackedseq, cs.sendbreak] ++ cs.pendingoutput
  ({ cs with
      myseq := myseq
      lasttextsize := cs.pendingoutput.length
      pendingoutput := []
      awaitingack := true
      lastpayload := payload },
   [ConsEffect.sendPayload payload 1 true])

/-- `Console._got_sol_payload`: the inbound SOL packet handler.  The first
stanza handles remote data (`newseq ≠ 0`): duplicate suppression against
`lastsize` on a retransmit (`newseq = remseq`), delivery of any new bytes,
and the ack packet.  The second stanza handles the BMC's ack of our last
transmit, including the NACK partial-retry path, and the final branch
re-sends `lastpayload` when an expected ack did not come. -/
def got_sol_payload (payload : List Nat) (cs : ConsoleState) :
    ConsoleState × List ConsEffect :=
  let newseq := payload.getD 0 0 &&& 0b1111
  let ackseq := payload.getD 1 0 &&& 0b1111
  let ackcount := payload.getD 2 0
  let nacked := payload.getD 3 0 &&& 0b1000000
  let poweredoff := payload.getD 3 0 &&& 0b100000
  let deactivated := payload.getD 3 0 &&& 0b10000
  let step1 : ConsoleState × List ConsEffect :=
    if newseq ≠ 0 then
      let remdatalen := if 4 < payload.length then (payload.drop 4).length else 0
      let remdata0 := if 4 < payload.length then payload.drop 4 else []
      let upd : ConsoleState × List Nat :=
        if newseq = cs.remseq then
          (cs, if cs.lastsize < remdatalen then remdata0.drop (4 + cs.lastsize) else [])
        else ({ cs with remseq := newseq }, remdata0)
      let cs := { upd.1 with lastsize := remdatalen }
      let peff := if upd.2 ≠ [] then [ConsEffect.printData upd.2] else []
      (cs, peff ++ [ConsEffect.sendPayload [0, cs.remseq, remdatalen, 0] 1 false])
    else (cs, [])
  let cs := step1.1
  if cs.myseq ≠ 0 ∧ ackseq = cs.myseq then
    let cs := { cs with awaitingack := false }
    if nacked ≠ 0 then
      let peffs := if poweredoff ≠ 0 then
        [ConsEffect.printData (asciiBytes "Remote system is powered down\n")] else []
      if deactivated ≠ 0 then
        (cs, step1.2 ++ peffs ++
          [ConsEffect.printData (asciiBytes "Remote IPMI console disconnected\n")])
      else
        let newtext := cs.lastpayload.drop (4 + ackcount)
        let cs := { cs with pendingoutput := newtext ++ cs.pendingoutput }
        let sent := sendpendingoutput cs
        (sent.1, step1.2 ++ peffs ++ sent.2)
    else (cs, step1.2)
  else if cs.awaitingack then
    (cs, step1.2 ++ [ConsEffect.sendPayload cs.lastpayload 1 true])
  else (cs, step1.2)

/-! ## Session: data model -/

/-- The values `Session.ipmicallback` takes: the internal login-chain
handlers, the generic synchronous-command handler, or a caller-supplied
callback.  Callbacks are recorded as effects, not executed, so a tag
suffices. -/
inductive Cb where
  | generic
  | userCb
  | gotChannelAuthCap
  | gotSessionChallenge
  | activatedSession
  | gotPrivLevel
  deriving Repr, DecidableEq

/-- A Python response dict: either `{'error': msg}`, a parsed command reply
`{'netfn':…, 'command':…, 'code':…, 'data':…}`, or `{'success': True}`. -/
inductive Response where
  | err (msg : String)
  | ipmiResp (netfn command code : Nat) (data : List Nat)
  | success
  deriving Repr, DecidableEq

/-- Used by `Console` and the session data model: a `raw_command`
invocation, with the argument defaults of `Session.raw_command`
(`data=[]`, `retry=True`) already resolved at the call site. -/
structure RawCommandCall where
  netfn : Nat
  command : Nat
  data : List Nat
  retry : Bool
  deriving Repr, DecidableEq

/-- An observable action of a `Session` method: a socket transmit of the
assembled `netpacket`, registry operations on the process-wide
`waiting_sessions` / `keepalive_sessions` dicts, an invocation of
`self.ipmicallback` or of the logon waiters (`onlogon`), a delivery to
`self.sol_handler`, or a nested `raw_command` call (from `logout`). -/
inductive Effect where
  | transmit (packet : List Nat)
  | addWaiting (delayed : Bool)
  | popWaiting
  | touchKeepalive
  | invokeCallback (cb : Option Cb) (r : Response)
  | onlogon (r : Response)
  | solDeliver (payload : List Nat)
  | rawCommand (c : RawCommandCall) (withCallback : Bool)
  deriving Repr, DecidableEq

/-- The `ipmiversion` attribute: the Python floats `1.5` and `2.0`. -/
inductive IpmiVersion where
  | v1_5
  | v2_0
  deriving Repr, DecidableEq

/-- The per-`Session` attributes that the embedded methods read or write.
`Option` fields model attributes that are `None` (or, for
`remsequencenumber` / `remseqnumber`, not yet set — `hasattr` is
`Option.isSome`).  `sessioncontext` is the literal Python string, keeping
quirks such as the `"Established"` / `"ESTABLISHED"` case mismatch in
`_got_rmcp_response` observable.  `tabooseq` is the dict
`(netfn, cmd, seqlun) → count` as an association list; counters are `Int`
because the code can drive an entry below zero. -/
structure SessionState where
  userid : List Nat
  password : List Nat
  kg : List Nat
  localsid : Nat
  privlevel : Nat
  confalgo : Bool
  aeskey : List Nat
  integrityalgo : Bool
  k1 : List Nat
  k2 : List Nat
  sik : List Nat
  rmcptag : Nat
  ipmicallback : Option Cb
  sessioncontext : Option String
  sequencenumber : Nat
  sessionid : Nat
  pendingsessionid : Nat
  authtype : Nat
  ipmiversion : IpmiVersion
  timeout : Int
  seqlun : Nat
  rqaddr : Nat
  logged : Bool
  sockaddr : Option Nat
  tabooseq : List ((Nat × Nat × Nat) × Int)
  ipmi15only : Nat
  solHandlerSet : Bool
  incommand : Bool
  cleaningup : Bool
  lastpayload : Option (List Nat)
  lastPayloadType : Option Nat
  pendingpayloads : List (List Nat × Option Nat × Bool)
  nowait : Bool
  remsequencenumber : Option Nat
  remseqnumber : Option Nat
  expectednetfn : Nat
  expectedcmd : Nat
  hasretried : Bool
  logontries : Int
  randombytes : List Nat
  remoterandombytes : List Nat
  remoteguid : List Nat
  allowedpriv : Nat
  deriving Repr, DecidableEq

/-- The injected environment: the cryptographic primitives the code calls
out to (`hashlib.md5`, `HMAC.new(…, SHA)`, `AES.new(…, MODE_CBC, iv)`),
the `os.urandom(16)` and `random.random()` draws (each draw in a call
chain is modelled by the same injected value), and the caller-supplied
`constants.rmcp_codes` table.  Durations are integers in milliseconds, so
`randHalf` is the millisecond value of `0.5 * random.random()`, in
`[0, 500)`. -/
structure Env where
  md5 : List Nat → List Nat
  hmac : List Nat → List Nat → List Nat
  aesEnc : List Nat → List Nat → List Nat → List Nat
  aesDec : List Nat → List Nat → List Nat → List Nat
  urandom16 : List Nat
  randHalf : Int
  rmcp_codes : Nat → Option String

/-- `initialtimeout`: the 0.5 s base for the per-session retry timeout,
in milliseconds. -/
def initialtimeout : Int := 500

/-- Python truthiness of an optional byte list (`None` and `()`/`""` are
falsy). -/
def truthyList : Option (List Nat) → Bool
  | none => false
  | some l => !l.isEmpty

/-- Python truthiness of the `sessioncontext` attribute (`None` falsy,
any of the state-name strings truthy). -/
def truthyCtx : Option String → Bool
  | none => false
  | some s => !(s = "")

/-- Modelled from the spec: the dependency-injected `payload_types` table
of `pyghmi.ipmi.private.constants` (not under `src/`), "name → 6-bit
code, including `ipmi=0`, `sol=1`, `rmcpplusopenreq`, `rakp1`, `rakp3`,
and the response codes 0x11/0x13/0x15"; the request codes are the IPMI
2.0 standard values 0x10/0x12/0x14. -/
def payload_types : List (String × Nat) :=
  [("ipmi", 0x0), ("sol", 0x1),
   ("rmcpplusopenreq", 0x10), ("rmcpplusopenresponse", 0x11),
   ("rakp1", 0x12), ("rakp2", 0x13), ("rakp3", 0x14), ("rakp4", 0x15)]

/-! ## Taboo-sequence dictionary -/

/-- Dict lookup on the taboo association list (`d.get(k)`). -/
def tabooGet (k : Nat × Nat × Nat) : List ((Nat × Nat × Nat) × Int) → Option Int
  | [] => none
  | (k', v) :: rest => if k = k' then some v else tabooGet k rest

/-- Dict assignment `d[k] = v` on the taboo association list. -/
def tabooSet (k : Nat × Nat × Nat) (v : Int) :
    List ((Nat × Nat × Nat) × Int) → List ((Nat × Nat × Nat) × Int)
  | [] => [(k, v)]
  | (k', v') :: rest =>
      if k = k' then (k, v) :: rest else (k', v') :: tabooSet k v rest

/-- `d[k] -= 1`: decrement an entry, `none` when the key is absent (a
Python `KeyError`). -/
def tabooDec (k : Nat × Nat × Nat) (m : List ((Nat × Nat × Nat) × Int)) :
    Option (List ((Nat × Nat × Nat) × Int)) :=
  match tabooGet k m with
  | none => none
  | some v => some (tabooSet k (v - 1) m)

/-- The `while` loop of `_make_ipmi_payload`, on the countdown
`seqincrement` (7 at the top): while `(netfn, command, seqlun)` is a
truthy taboo entry and fuel remains, decrement the entry at
`(expectednetfn, command, seqlun)` — note the differing first component,
`expectednetfn = netfn + 1` at this point — and advance `seqlun` by 4
modulo 256.  `none` is the `KeyError` when the decremented key is
absent. -/
def tabooAdvance (netfn command expectednetfn : Nat) :
    Nat → Nat → List ((Nat × Nat × Nat) × Int) →
    Option (Nat × List ((Nat × Nat × Nat) × Int))
  | 0, seqlun, taboo => some (seqlun, taboo)
  | fuel + 1, seqlun, taboo =>
      match tabooGet (netfn, command, seqlun) taboo with
      | none => some (seqlun, taboo)
      | some v =>
          if v = 0 then some (seqlun, taboo)
          else
            match tabooDec (expectednetfn, command, seqlun) taboo with
            | none => none
            | some taboo' =>
                tabooAdvance netfn command expectednetfn fuel
                  ((seqlun + 4) &&& 0xff) taboo'

/-! ## Session: outbound path -/

/-- `Session._make_ipmi_payload`: record the expected reply
(`expectednetfn = netfn + 1`, `expectedcmd = command`), skip taboo
`seqlun` values (at most 7 advances), then frame
`[0x20, netfn<<2, checksum1, rqaddr, seqlun, command, data…, checksum2]`. -/
def make_ipmi_payload (netfn command : Nat) (data : List Nat)
    (st : SessionState) : Option (List Nat × SessionState) :=
  let st := { st with expectedcmd := command, expectednetfn := netfn + 1 }
  match tabooAdvance netfn command st.expectednetfn 7 st.seqlun st.tabooseq with
  | none => none
  | some (seqlun, taboo) =>
      let st := { st with seqlun := seqlun, tabooseq := taboo }
      let header := [0x20, netfn <<< 2]
      let reqbody := [st.rqaddr, st.seqlun, command] ++ data
      let headsum := checksum header
      let bodysum := checksum reqbody
      some (header ++ [headsum] ++ reqbody ++ [bodysum], st)

/-- `Session._ipmi15authcode`: the IPMI 1.5 MD5 auth code,
`MD5(password₁₆ ‖ sessionid ‖ payload ‖ seq ‖ password₁₆)`, using the
remote sequence number when verifying an inbound packet.  `none` is the
"Password is too long for ipmi 1.5" exception. -/
def ipmi15authcode (env : Env) (payload : List Nat) (checkremotecode : Bool)
    (st : SessionState) : Option (List Nat) :=
  if st.authtype = 0 then some []
  else if 16 < st.password.length then none
  else
    let passdata := st.password ++ List.replicate (16 - st.password.length) 0
    let seqbytes := if checkremotecode then le32 (st.remsequencenumber.getD 0)
      else le32 st.sequencenumber
    let sessdata := le32 st.sessionid
    some (env.md5 (passdata ++ sessdata ++ payload ++ seqbytes ++ passdata))

/-- `Session._xmit_packet`: bump a nonzero outbound sequence number,
register in `waiting_sessions` when `retry` (deferred-deadline when
`delay_xmit` is given, in which case no transmit happens), then send the
packet.  `none` is the KeyError of a `delay_xmit` without `retry`. -/
def xmit_packet (retry : Bool) (delay_xmit : Option Int) (packet : List Nat)
    (st : SessionState) : Option (SessionState × List Effect) :=
  let st := if st.sequencenumber ≠ 0 then
    { st with sequencenumber := st.sequencenumber + 1 } else st
  match delay_xmit with
  | some _ =>
      if retry then some (st, [Effect.addWaiting true])
      else none
  | none =>
      some (st, (if retry then [Effect.addWaiting false] else [])
        ++ [Effect.transmit packet])

/-- The frame-assembly block of `Session.send_payload`: the RMCP header
`06 00 ff 07`, authtype, then either the RMCP+ (2.0) framing — payload
type with integrity/confidentiality bits, session id, sequence number,
sized (optionally AES-CBC encrypted) payload, and the HMAC-SHA1-96
trailer — or the IPMI 1.5 framing — sequence number, session id, optional
MD5 auth code, sized payload, and the legacy pad byte.  Pure: reads the
session state, changes nothing.  `none` covers the Python exceptions
(unknown 2.0 payload type, OEM payloads, 1.5 password too long). -/
def assemble_message (env : Env) (ptypeOpt : Option Nat) (pay : List Nat)
    (st : SessionState) : Option (List Nat) :=
  let message := [0x6, 0, 0xff, 0x07] ++ [st.authtype]
  if st.ipmiversion = IpmiVersion.v2_0 then
    match ptypeOpt with
    | none => none
    | some baretype =>
        if baretype = 2 then none
        else if ¬ (payload_types.map Prod.snd).contains baretype then none
        else
          let ptWire := baretype
            ||| (if st.integrityalgo then 0b01000000 else 0)
            ||| (if st.confalgo then 0b10000000 else 0)
          let message := message ++ [ptWire] ++ le32 st.sessionid
            ++ le32 st.sequencenumber
          let psize := pay.length
          let message :=
            if st.confalgo then
              let pad0 := (psize + 1) % 16
              let pad := if pad0 ≠ 0 then 16 - pad0 else 0
              let newpsize := psize + pad + 17
              message ++ [newpsize &&& 0xff, newpsize >>> 8]
                ++ env.urandom16
                ++ env.aesEnc st.aeskey env.urandom16 (aespad pay)
            else message ++ [psize &&& 0xff, psize >>> 8] ++ pay
          if st.integrityalgo then
            let neededpad0 := (message.length - 2) % 4
            let neededpad := if neededpad0 ≠ 0 then 4 - neededpad0 else 0
            let message := message ++ List.replicate neededpad 0xff
              ++ [neededpad, 7]
            some (message ++ (env.hmac st.k1 (message.drop 4)).take 12)
          else some message
  else
    let message := message ++ le32 st.sequencenumber ++ le32 st.sessionid
    match (if st.authtype ≠ 0 then ipmi15authcode env pay false st
           else some []) with
    | none => none
    | some code =>
        let message := message ++ code
        let message := message ++ [pay.length] ++ pay
        let totlen := 34 + message.length
        some (if totlen = 56 ∨ totlen = 84 ∨ totlen = 112
            ∨ totlen = 128 ∨ totlen = 156 then message ++ [0] else message)

/-- `Session.send_payload`: queue behind an outstanding payload, else
resolve the payload/type defaults from the last transmit, assemble the
frame, refresh the keepalive deadline, and transmit. -/
def send_payload (env : Env) (payload : Option (List Nat))
    (payload_type : Option Nat) (retry : Bool) (delay_xmit : Option Int)
    (st : SessionState) : Option (SessionState × List Effect) :=
  if payload.isSome ∧ st.lastpayload.isSome then
    some ({ st with
      pendingpayloads := st.pendingpayloads ++ [(payload.getD [], payload_type, retry)] }, [])
  else
    let ptypeOpt := match payload_type with
      | some t => some t
      | none => st.lastPayloadType
    match payload.orElse (fun _ => st.lastpayload) with
    | none => none
    | some pay =>
        let st := if retry then
          { st with lastpayload := some pay, lastPayloadType := ptypeOpt } else st
        match assemble_message env ptypeOpt pay st with
        | none => none
        | some netpacket =>
            match xmit_packet retry delay_xmit netpacket st with
            | none => none
            | some (st, effs) => some (st, Effect.touchKeepalive :: effs)

/-- `Session._send_ipmi_net_payload`: build the core IPMI payload and send
it as payload type `ipmi` (0). -/
def send_ipmi_net_payload (env : Env) (netfn command : Nat) (data : List Nat)
    (retry : Bool) (delay_xmit : Option Int) (st : SessionState) :
    Option (SessionState × List Effect) :=
  match make_ipmi_payload netfn command data st with
  | none => none
  | some (ipmipayload, st) =>
      send_payload env (some ipmipayload) (some 0) retry delay_xmit st

/-- Name lookup in the injected `payload_types` table. -/
def payloadType (name : String) : Nat :=
  ((payload_types.find? (fun p => p.1 = name)).map Prod.snd).getD 0

/-- `Session._initsession`: the field resets performed at the start of
every login attempt (`login` and `_relog`).  The in-flight and queue
fields (`lastpayload`, `pendingpayloads`, `incommand`) are set in
`__init__` only and are left untouched. -/
def initsession (env : Env) (st : SessionState) : SessionState :=
  { st with
    localsid := 2017673555
    privlevel := 4
    confalgo := false
    aeskey := []
    integrityalgo := false
    k1 := []
    rmcptag := 1
    ipmicallback := none
    sessioncontext := none
    sequencenumber := 0
    sessionid := 0
    authtype := 0
    ipmiversion := IpmiVersion.v1_5
    timeout := initialtimeout + env.randHalf
    seqlun := 0
    rqaddr := 0x81
    logged := false
    sockaddr := none
    tabooseq := []
    ipmi15only := 0
    solHandlerSet := false }

/-- `Session._get_channel_auth_cap`: probe with byte `0x8e` (IPMI 2.0
capable) or `0x0e` when restricted to 1.5. -/
def get_channel_auth_cap (env : Env) (st : SessionState) :
    Option (SessionState × List Effect) :=
  let st := { st with ipmicallback := some Cb.gotChannelAuthCap }
  if st.ipmi15only ≠ 0 then
    send_ipmi_net_payload env 0x6 0x38 [0x0e, st.privlevel] true none st
  else
    send_ipmi_net_payload env 0x6 0x38 [0x8e, st.privlevel] true none st

/-- `Session._relog`: reset the session and restart the login handshake
from the channel-auth-cap probe. -/
def relog (env : Env) (st : SessionState) : Option (SessionState × List Effect) :=
  let st := initsession env st
  let st := { st with logontries := st.logontries - 1 }
  get_channel_auth_cap env st

/-- `Session._open_rmcpplus_request`: switch to RMCP+ (`authtype = 6`),
take a fresh local session id and RMCP tag, and send the open-session
request proposing SHA-1 auth, SHA-1 integrity, and AES privacy. -/
def open_rmcpplus_request (env : Env) (st : SessionState) :
    Option (SessionState × List Effect) :=
  let st := { st with
    authtype := 6
    localsid := st.localsid + 1
    rmcptag := st.rmcptag + 1 }
  let data := [st.rmcptag, 0, 0, 0] ++ le32 st.localsid ++
    [0, 0, 0, 8, 1, 0, 0, 0,
     1, 0, 0, 8, 1, 0, 0, 0,
     2, 0, 0, 8, 1, 0, 0, 0]
  let st := { st with sessioncontext := some "OPENSESSION" }
  send_payload env (some data) (some (payloadType "rmcpplusopenreq")) true none st

/-- `Session._send_rakp1`: fresh tag and 16 random bytes, then the RAKP1
message, and enter `EXPECTINGRAKP2`. -/
def send_rakp1 (env : Env) (st : SessionState) :
    Option (SessionState × List Effect) :=
  let st := { st with rmcptag := st.rmcptag + 1, randombytes := env.urandom16 }
  let userlen := st.userid.length
  let payload := [st.rmcptag, 0, 0, 0] ++ le32 st.pendingsessionid ++
    st.randombytes ++ [st.privlevel, 0, 0] ++ [userlen] ++ st.userid
  let st := { st with sessioncontext := some "EXPECTINGRAKP2" }
  send_payload env (some payload) (some (payloadType "rakp1")) true none st

/-- `Session._send_rakp3`: fresh tag, then the RAKP3 message carrying
`HMAC-SHA1(password, rand_remote ‖ localsid ‖ priv ‖ userlen ‖ userid)`. -/
def send_rakp3 (env : Env) (st : SessionState) :
    Option (SessionState × List Effect) :=
  let st := { st with rmcptag := st.rmcptag + 1 }
  let hmacdata := st.remoterandombytes ++ le32 st.localsid ++
    [st.privlevel, st.userid.length] ++ st.userid
  let authcode := env.hmac st.password hmacdata
  let payload := [st.rmcptag, 0, 0, 0] ++ le32 st.pendingsessionid ++ authcode
  send_payload env (some payload) (some (payloadType "rakp3")) true none st

/-- `Session._req_priv_level`: request the target privilege level
(netfn 6, cmd 0x3b). -/
def req_priv_level (env : Env) (st : SessionState) :
    Option (SessionState × List Effect) :=
  let st := { st with ipmicallback := some Cb.gotPrivLevel }
  send_ipmi_net_payload env 0x6 0x3b [st.privlevel] true none st

/-! ## Session: reply parsing, retry timer, keepalive, logout -/

/-- `Session._parse_ipmi_payload`: drop a reply that does not match the
expected `(seqlun, netfn, cmd)`; on a match, record the taboo entry when
the command had been retried, retire the expectation (`0x1ff` can never
match a byte), advance `seqlun`, leave `waiting_sessions`, clear the
in-flight payload, reset the retry timeout, start the next queued payload
if any, clear `incommand`, and invoke the command callback with the
parsed `{netfn, command, code, data}`. -/
def parse_ipmi_payload (env : Env) (payload : List Nat) (st : SessionState) :
    Option (SessionState × List Effect) :=
  if ¬ (payload.getD 4 0 = st.seqlun ∧ payload.getD 1 0 >>> 2 = st.expectednetfn
      ∧ payload.getD 5 0 = st.expectedcmd) then
    some (st, [])
  else
    let st := if st.hasretried then
      { st with
        hasretried := false
        tabooseq := tabooSet (st.expectednetfn, st.expectedcmd, st.seqlun) 16
          st.tabooseq }
      else st
    let st := { st with
      expectednetfn := 0x1ff
      expectedcmd := 0x1ff
      seqlun := (st.seqlun + 4) &&& 0xff
      lastpayload := none
      lastPayloadType := none }
    let netfn := payload.getD 1 0 >>> 2
    let body := (payload.drop 5).dropLast
    let response := Response.ipmiResp netfn (body.getD 0 0) (body.getD 1 0)
      (body.drop 2)
    let st := { st with timeout := initialtimeout + env.randHalf }
    match st.pendingpayloads with
    | [] =>
        some ({ st with incommand := false },
          [Effect.popWaiting, Effect.invokeCallback st.ipmicallback response])
    | (np, nt, nr) :: rest =>
        match send_payload env (some np) nt nr none
            { st with pendingpayloads := rest } with
        | none => none
        | some (st, effs) =>
            some ({ st with incommand := false },
              Effect.popWaiting :: effs
                ++ [Effect.invokeCallback st.ipmicallback response])

/-- `Session._timedout`: the retry-timer expiry handler.  Nothing happens
without a truthy `lastpayload`; otherwise the per-session timeout grows by
1 s, and past 5 the command callback gets `{'error': 'timeout'}` and
`incommand` is cleared.  Below the threshold the retry is state-aware:
nothing in `FAILED`, a fresh open-session request in `OPENSESSION`, a full
`_relog` in the RAKP states, and a plain resend of `lastpayload`
otherwise (with `hasretried` noted for the taboo bookkeeping). -/
def timedout (env : Env) (st : SessionState) :
    Option (SessionState × List Effect) :=
  if ¬ truthyList st.lastpayload then some (st, [])
  else
    let st := { st with nowait := true, timeout := st.timeout + 1000 }
    if 5000 < st.timeout then
      some ({ st with incommand := false, nowait := false },
        [Effect.invokeCallback st.ipmicallback (Response.err "timeout")])
    else if st.sessioncontext = some "FAILED" then
      some ({ st with nowait := false }, [])
    else
      let step :=
        if st.sessioncontext = some "OPENSESSION" then
          open_rmcpplus_request env st
        else if st.sessioncontext = some "EXPECTINGRAKP2"
            ∨ st.sessioncontext = some "EXPECTINGRAKP4" then
          relog env st
        else
          send_payload env none none true none { st with hasretried := true }
      match step with
      | none => none
      | some (st, effs) => some ({ st with nowait := false }, effs)

/-- `Session._keepalive`: nothing while a command is in flight, else the
`raw_command(netfn=6, command=1)` call — with `raw_command`'s parameter
defaults `data=[]` and `retry=True`. -/
def keepalive (st : SessionState) : Option RawCommandCall :=
  if st.incommand then none
  else some { netfn := 6, command := 1, data := [], retry := true }

/-- The keepalive pass of `Session.wait_for_rsp`: every entry of
`keepalive_sessions` whose deadline lies before the current time gets a
`_keepalive` call; the issued `raw_command` calls, in order. -/
def keepaliveSweep (curtime : Int) (entries : List (Int × SessionState)) :
    List RawCommandCall :=
  match entries with
  | [] => []
  | (deadline, st) :: rest =>
      if deadline < curtime then
        match keepalive st with
        | some c => c :: keepaliveSweep curtime rest
        | none => keepaliveSweep curtime rest
      else keepaliveSweep curtime rest

/-- `Session.logout`: on a session that is not logged in, report
`{'success': True}` (returned, or passed to the callback) and do nothing
else.  Otherwise issue the close-session command (netfn 6, cmd 0x3c,
`retry=False`; fire-and-forget when `cleaningup`), mark the session
logged out, and report success.  The result triple is (new state,
effects, returned value). -/
def logout (hasCallback : Bool) (st : SessionState) :
    SessionState × List Effect × Option Response :=
  if ¬ st.logged then
    if ¬ hasCallback then (st, [], some Response.success)
    else (st, [Effect.invokeCallback (some Cb.userCb) Response.success], none)
  else
    let withCb := if st.cleaningup then false else hasCallback
    let st := if st.cleaningup then { st with nowait := true } else st
    let call : RawCommandCall :=
      { netfn := 6, command := 0x3c, data := le32 st.sessionid, retry := false }
    let st := { st with logged := false, nowait := false }
    if ¬ withCb then (st, [Effect.rawCommand call withCb], some Response.success)
    else (st, [Effect.rawCommand call withCb,
      Effect.invokeCallback (some Cb.userCb) Response.success], none)

/-! ## Session: inbound routing -/

/-- The `constants.rmcp_codes` stringification used by the RAKP
handlers: the table entry, or `"Unrecognized RMCP code %d"`. -/
def rmcpErrstr (env : Env) (code : Nat) : String :=
  match env.rmcp_codes code with
  | some s => s
  | none => "Unrecognized RMCP code " ++ toString code

/-- `Session._got_rmcp_response`: handle the RMCP+ open-session response —
guard on state and tag (note the source compares against `"Established"`
while the stored value is `"ESTABLISHED"`), surface RMCP error codes via
`onlogon`, check our session id, record the BMC-assigned pending session
id, and proceed to RAKP1. -/
def got_rmcp_response (env : Env) (data : List Nat) (st : SessionState) :
    Option (SessionState × List Effect) :=
  if ¬ (truthyCtx st.sessioncontext ∧ st.sessioncontext ≠ some "Established") then
    some (st, [])
  else if data.getD 0 0 ≠ st.rmcptag then some (st, [])
  else if data.getD 1 0 ≠ 0 then
    some (st, [Effect.onlogon (Response.err (rmcpErrstr env (data.getD 1 0)))])
  else
    let st := { st with allowedpriv := data.getD 2 0 }
    let localsid := unle32 data 4
    if st.localsid ≠ localsid then some (st, [])
    else
      let st := { st with
        pendingsessionid := unle32 data 8
        lastpayload := none }
      send_rakp1 env st

/-- `Session._got_rakp2`: verify the RAKP2 HMAC against the password; on
mismatch the session enters `FAILED` and `onlogon` reports "Incorrect
password provided"; on success derive `SIK`, `K1`, `K2` and the AES key
and proceed to RAKP3. -/
def got_rakp2 (env : Env) (data : List Nat) (st : SessionState) :
    Option (SessionState × List Effect) :=
  if ¬ (st.sessioncontext = some "EXPECTINGRAKP2"
      ∨ st.sessioncontext = some "EXPECTINGRAKP4") then some (st, [])
  else if data.getD 0 0 ≠ st.rmcptag then some (st, [])
  else if data.getD 1 0 ≠ 0 then
    if data.getD 1 0 = 2 then some (st, [])
    else
      some (st, [Effect.onlogon
        (Response.err (rmcpErrstr env (data.getD 1 0) ++ " in RAKP2"))])
  else
    let localsid := unle32 data 4
    if localsid ≠ st.localsid then some (st, [])
    else
      let st := { st with
        remoterandombytes := (data.drop 8).take 16
        remoteguid := (data.drop 24).take 16 }
      let userlen := st.userid.length
      let hmacdata := le32 localsid ++ le32 st.pendingsessionid ++
        st.randombytes ++ st.remoterandombytes ++ st.remoteguid ++
        [st.privlevel, userlen] ++ st.userid
      let expectedhash := env.hmac st.password hmacdata
      let givenhash := data.drop 40
      if givenhash ≠ expectedhash then
        some ({ st with sessioncontext := some "FAILED" },
          [Effect.onlogon (Response.err "Incorrect password provided")])
      else
        let sik := env.hmac st.kg (st.randombytes ++ st.remoterandombytes ++
          [st.privlevel, userlen] ++ st.userid)
        let st := { st with
          sik := sik
          k1 := env.hmac sik (List.replicate 20 1)
          k2 := env.hmac sik (List.replicate 20 2) }
        let st := { st with
          aeskey := st.k2.take 16
          sessioncontext := some "EXPECTINGRAKP4"
          lastpayload := none }
        send_rakp3 env st

/-- `Session._got_rakp4`: verify the RAKP4 integrity code against `SIK`.
An RMCP status 2 with retries left restarts the login via `_relog` (and,
the source having no `return` there, still falls through to the `onlogon`
error report); status 15 with retries left is ignored.  On success the
session becomes `ESTABLISHED` with the negotiated algorithms and requests
its privilege level. -/
def got_rakp4 (env : Env) (data : List Nat) (st : SessionState) :
    Option (SessionState × List Effect) :=
  if st.sessioncontext ≠ some "EXPECTINGRAKP4" ∨ data.getD 0 0 ≠ st.rmcptag then
    some (st, [])
  else if data.getD 1 0 ≠ 0 then
    let step := if data.getD 1 0 = 2 ∧ st.logontries ≠ 0 then relog env st
      else some (st, [])
    match step with
    | none => none
    | some (st, effs) =>
        if data.getD 1 0 = 15 ∧ st.logontries ≠ 0 then some (st, effs)
        else
          some (st, effs ++ [Effect.onlogon (Response.err
            (rmcpErrstr env (data.getD 1 0) ++ " reported in RAKP4"))])
  else
    let localsid := unle32 data 4
    if st.localsid ≠ localsid then some (st, [])
    else
      let hmacdata := st.randombytes ++ le32 st.pendingsessionid ++ st.remoteguid
      let expectedauthcode := (env.hmac st.sik hmacdata).take 12
      let authcode := data.drop 8
      if authcode ≠ expectedauthcode then
        some (st, [Effect.onlogon
          (Response.err "Invalid RAKP4 integrity code (wrong Kg?)")])
      else
        let st := { st with
          sessionid := st.pendingsessionid
          integrityalgo := true
          confalgo := true
          sequencenumber := 1
          sessioncontext := some "ESTABLISHED"
          lastpayload := none }
        req_priv_level env st

/-- The SOL suite of `_handle_ipmi2_packet` (payload type 1): when the
last transmit was itself SOL, clear the in-flight payload, leave
`waiting_sessions`, and start the next queued payload; then defer the
payload to `sol_handler` when one is registered. -/
def sol_rx (env : Env) (payload : List Nat) (st : SessionState) :
    Option (SessionState × List Effect) :=
  let step : Option (SessionState × List Effect) :=
    if st.lastPayloadType = some 1 then
      let st := { st with lastpayload := none, lastPayloadType := none }
      match st.pendingpayloads with
      | [] => some (st, [Effect.popWaiting])
      | (np, nt, nr) :: rest =>
          match send_payload env (some np) nt nr none
              { st with pendingpayloads := rest } with
          | none => none
          | some (st, effs) => some (st, Effect.popWaiting :: effs)
    else some (st, [])
  match step with
  | none => none
  | some (st, effs) =>
      if st.solHandlerSet then some (st, effs ++ [Effect.solDeliver payload])
      else some (st, effs)

/-- The received-payload extraction of `_handle_ipmi2_packet`: the sized
payload at offset 16, and — when the confidentiality bit of the
payload-type byte is set — its AES-CBC decryption under the 16-byte IV
with the table 13-20 pad (trailing pad-length byte, `pad_length + 1`
bytes stripped). -/
def payload20 (env : Env) (data : List Nat) (st : SessionState) : List Nat :=
  let psize := data.getD 14 0 + (data.getD 15 0 <<< 8)
  let payload := (data.drop 16).take psize
  if data.getD 5 0 &&& 0b10000000 ≠ 0 then
    let iv := (data.drop 16).take 16
    let decrypted := env.aesDec st.aeskey iv (payload.drop 16)
    let padsize := decrypted.getLast?.getD 0 + 1
    decrypted.take (decrypted.length - padsize)
  else payload

/-- `Session._handle_ipmi2_packet`: dispatch an RMCP+ datagram by payload
type (`data[5] & 0x3f`): 0x11 open-session response, 0x13 RAKP2, 0x15
RAKP4.  For IPMI (0) and SOL (1) payloads: require the mutual-auth bit,
verify the HMAC-SHA1-96 trailer with `K1` over bytes `4 … −12`, require
the session id to equal `localsid`, enforce the monotone inbound sequence
(with the `0xffffffff` wrap allowance) before recording it, then hand the
extracted payload to `_parse_ipmi_payload` or to the SOL suite. -/
def handle_ipmi2_packet (env : Env) (data : List Nat) (st : SessionState) :
    Option (SessionState × List Effect) :=
  if data.getD 5 0 &&& 0b00111111 = 0x11 then
    got_rmcp_response env (data.drop 16) st
  else if data.getD 5 0 &&& 0b00111111 = 0x13 then
    got_rakp2 env (data.drop 16) st
  else if data.getD 5 0 &&& 0b00111111 = 0x15 then
    got_rakp4 env (data.drop 16) st
  else if data.getD 5 0 &&& 0b00111111 = 0
      ∨ data.getD 5 0 &&& 0b00111111 = 1 then
    if data.getD 5 0 &&& 0b01000000 = 0 then some (st, [])
    else if data.drop (data.length - 12)
        ≠ (env.hmac st.k1 ((data.take (data.length - 12)).drop 4)).take 12 then
      some (st, [])
    else if unle32 data 6 ≠ st.localsid then some (st, [])
    else if (match st.remseqnumber with
        | some old => decide (unle32 data 10 < old) && decide (old ≠ 0xffffffff)
        | none => false) then some (st, [])
    else
      let st := { st with remseqnumber := some (unle32 data 10) }
      if data.getD 5 0 &&& 0b00111111 = 0 then
        parse_ipmi_payload env (payload20 env data st) st
      else sol_rx env (payload20 env data st) st
  else some (st, [])

/-- The payload slice of the IPMI 1.5 inbound path: byte 13 holds the
payload length and the payload starts at byte 14, after the 16-byte MD5
auth code (bytes 13–28) has been dropped when `hasAuthcode`. -/
def payload15 (data : List Nat) (hasAuthcode : Bool) : List Nat :=
  let rsp := if hasAuthcode then data.take 13 ++ data.drop 29 else data
  (rsp.drop 14).take (rsp.getD 13 0)

/-- The checks of the IPMI 1.5 inbound path that follow the sequence
number update: authtype match, session-id match, and — for authtype 2 —
the MD5 auth-code verification, then `_parse_ipmi_payload`. -/
def handle_ipmi15_checked (env : Env) (data : List Nat) (st : SessionState) :
    Option (SessionState × List Effect) :=
  if data.getD 4 0 ≠ st.authtype then some (st, [])
  else if unle32 data 9 ≠ st.sessionid then some (st, [])
  else if data.getD 4 0 = 2 then
    match ipmi15authcode env (payload15 data true) true st with
    | none => none
    | some expectedauthcode =>
        if expectedauthcode ≠ (data.drop 13).take 16 then some (st, [])
        else parse_ipmi_payload env (payload15 data true) st
  else parse_ipmi_payload env (payload15 data false) st

/-- The IPMI 1.5 suite of `_handle_ipmi_packet` (authtype byte 0 or 2):
reject a receding remote sequence number, else record the received one —
*before* the remaining checks run — and continue with them. -/
def handle_ipmi15 (env : Env) (data : List Nat) (st : SessionState) :
    Option (SessionState × List Effect) :=
  if (match st.remsequencenumber with
      | some old => decide (unle32 data 5 < old)
      | none => false) then some (st, [])
  else
    handle_ipmi15_checked env data
      { st with remsequencenumber := some (unle32 data 5) }

/-- The authtype dispatch of `_handle_ipmi_packet`: bytes 0/2 to the IPMI
1.5 suite, byte 6 to the RMCP+ handler, everything else dropped. -/
def handle_ipmi_routed (env : Env) (data : List Nat) (st : SessionState) :
    Option (SessionState × List Effect) :=
  if data.getD 4 0 = 0 ∨ data.getD 4 0 = 2 then handle_ipmi15 env data st
  else if data.getD 4 0 = 6 then handle_ipmi2_packet env data st
  else some (st, [])

/-- `Session._handle_ipmi_packet`: ignore a datagram from an unexpected
peer, adopt the peer address when none is recorded yet, and route by the
authtype byte. -/
def handle_ipmi_packet (env : Env) (data : List Nat) (sockaddr : Option Nat)
    (st : SessionState) : Option (SessionState × List Effect) :=
  if st.sockaddr.isSome ∧ sockaddr.isSome ∧ st.sockaddr ≠ sockaddr then
    some (st, [])
  else if st.sockaddr = none ∧ sockaddr.isSome then
    handle_ipmi_routed env data { st with sockaddr := sockaddr }
  else handle_ipmi_routed env data st

/-! ## The waiting-sessions registry

`Session.waiting_sessions` is a Python dict keyed by the session object;
`_xmit_packet` installs a session with `waiting_sessions[self] = {…}`.
We model the dict as an association list over an abstract session key and
dict assignment as key-unique insertion. -/

/-- Dict assignment `d[k] = v` on an association list: replace the
existing entry for `k`, or append a new one. -/
def dictSet {V : Type} (k : Nat) (v : V) : List (Nat × V) → List (Nat × V)
  | [] => [(k, v)]
  | (k', v') :: rest =>
      if k = k' then (k, v) :: rest else (k', v') :: dictSet k v rest

/-! ## Concrete fixtures for witnesses and counterexamples -/

/-- A concrete environment: degenerate injected crypto (every digest is
zeros, AES passes data through), zero random draws, empty RMCP table. -/
def env0 : Env where
  md5 := fun _ => List.replicate 16 0
  hmac := fun _ _ => List.replicate 20 0
  aesEnc := fun _ _ d => d
  aesDec := fun _ _ d => d
  urandom16 := List.replicate 16 0
  randHalf := 0
  rmcp_codes := fun _ => none

/-- A concrete baseline session state: the fields a fresh
`Session.__init__` + `_initsession` leave behind (with zero random
draw). -/
def st0 : SessionState where
  userid := [117]
  password := [112]
  kg := [112]
  localsid := 2017673555
  privlevel := 4
  confalgo := false
  aeskey := []
  integrityalgo := false
  k1 := []
  k2 := []
  sik := []
  rmcptag := 1
  ipmicallback := none
  sessioncontext := none
  sequencenumber := 0
  sessionid := 0
  pendingsessionid := 0
  authtype := 0
  ipmiversion := IpmiVersion.v1_5
  timeout := 500
  seqlun := 0
  rqaddr := 0x81
  logged := false
  sockaddr := none
  tabooseq := []
  ipmi15only := 0
  solHandlerSet := false
  incommand := false
  cleaningup := false
  lastpayload := none
  lastPayloadType := none
  pendingpayloads := []
  nowait := false
  remsequencenumber := none
  remseqnumber := none
  expectednetfn := 0x1ff
  expectedcmd := 0x1ff
  hasretried := false
  logontries := 5
  randombytes := []
  remoterandombytes := []
  remoteguid := []
  allowedpriv := 0

/-- A concrete console state: an SOL console that has already delivered a
1-byte packet with remote sequence number 1 (`remseq = 1`,
`lastsize = 1`) and has nothing of its own in flight. -/
def cs0 : ConsoleState where
  remseq := 1
  myseq := 0
  lastsize := 1
  sendbreak := 0
  ackedcount := 0
  ackedseq := 0
  retriedpayload := 0
  pendingoutput := []
  awaitingack := false
  lastpayload := []
  lasttextsize := 0

/-- An ESTABLISHED session with a retried request in flight
(`lastpayload = [1,2,3]`) whose retry timeout has accumulated to 5 s. -/
def stC2 : SessionState :=
  { st0 with
    lastpayload := some [1, 2, 3]
    timeout := 5000
    incommand := true
    sessioncontext := some "ESTABLISHED"
    ipmicallback := some Cb.userCb }

/-- The state `_timedout` leaves behind at `stC2`: callback fired,
`incommand` cleared — but `lastpayload` retained. -/
def stC2After : SessionState :=
  { stC2 with
    timeout := 6000
    incommand := false
    nowait := false }

/-- A session expecting the reply to a retried `(netfn=6, cmd=1)` request
sent with `seqlun = 0`; `_make_ipmi_payload` had set
`expectednetfn = 6 + 1 = 7`. -/
def stC4 : SessionState :=
  { st0 with
    hasretried := true
    expectednetfn := 7
    expectedcmd := 1 }

/-- A session whose taboo map holds exactly the entry `(7, 1, 0) ↦ 16`
that `_parse_ipmi_payload` records after a retried `(netfn=6, cmd=1)`
exchange at `seqlun = 0`. -/
def stC4taboo : SessionState :=
  { st0 with tabooseq := [((7, 1, 0), 16)] }

/-- A session that has already seen IPMI 1.5 traffic with remote
sequence number 3. -/
def stC6 : SessionState :=
  { st0 with remsequencenumber := some 3 }

/-- An IPMI 1.5 datagram (authtype byte 0) carrying sequence number 7 and
session id 0; too short to hold a payload, so its parse is dropped after
the sequence number is recorded. -/
def dataC6 : List Nat :=
  [6, 0, 255, 7, 0, 7, 0, 0, 0, 0, 0, 0, 0]

/-- A session that FAILED at RAKP2 with the retried RAKP1 payload still
in flight and an accumulated timeout of 5 s. -/
def stC8 : SessionState :=
  { st0 with
    sessioncontext := some "FAILED"
    lastpayload := some [1]
    timeout := 5000
    ipmicallback := some Cb.gotChannelAuthCap }

/-! ## Claim C1 — SOL retransmit delivery -/

/-- C1: the code violates the claim.  A retransmit (`newseq = remseq = 1`)
arrives with six data bytes `"abcdef"` after the 4-byte SOL header while
`lastsize = 1`.  The claim (and the spec's stated intent) require the
consumer to receive exactly the data suffix beyond the first `lastsize`
bytes, `"bcdef" = [98, 99, 100, 101, 102]`.  The code slices the
already-header-stripped buffer by `4 + lastsize` and delivers only
`"f" = [102]`, omitting four new bytes. -/
theorem C1_sol_retransmit_failing_input :
    (got_sol_payload [1, 0, 0, 0, 97, 98, 99, 100, 101, 102] cs0).2
      = [ConsEffect.printData [102], ConsEffect.sendPayload [0, 1, 6, 0] 1 false]
    ∧ [98, 99, 100, 101, 102]
        = List.drop cs0.lastsize [97, 98, 99, 100, 101, 102]
    ∧ ([102] : List Nat) ≠ [98, 99, 100, 101, 102] :=
  ⟨rfl, rfl, by decide⟩

/-! ## Claim C2 — retry-timer expiry -/

/-- C2 (counterexample): at a state with `lastpayload = [1,2,3]` and
accumulated timeout 5, the expiry invokes the callback with
`{'error': 'timeout'}` and clears `incommand` — but `lastpayload` is NOT
cleared, so the in-flight state survives, and a subsequently submitted
payload is appended to the pending queue without any transmit, contrary
to "the in-flight state is cleared, so … a subsequently submitted command
can be sent". -/
theorem C2_timeout_counterexample :
    timedout env0 stC2
      = some (stC2After,
        [Effect.invokeCallback (some Cb.userCb) (Response.err "timeout")])
    ∧ stC2After.lastpayload = some [1, 2, 3]
    ∧ send_payload env0 (some [9]) (some 0) true none stC2After
      = some ({ stC2After with
                pendingpayloads := [([9], some 0, true)] }, []) :=
  ⟨by decide, by decide, by decide⟩

/-- C2 (amended): on expiry, nothing happens without a truthy
`lastpayload`; otherwise the timeout grows by 1 s, and once it exceeds 5
the callback is invoked with `{'error': 'timeout'}` and `incommand` is
cleared while `lastpayload` is retained — no retransmit or re-arming
occurs (the returned effects are the callback invocation only), and a
subsequently submitted payload is queued rather than transmitted. -/
theorem C2_timedout_expiry (env : Env) (st : SessionState) :
    (truthyList st.lastpayload = false → timedout env st = some (st, []))
    ∧ (truthyList st.lastpayload = true → 5000 < st.timeout + 1000 →
        timedout env st = some
          ({ st with
              timeout := st.timeout + 1000
              incommand := false
              nowait := false },
           [Effect.invokeCallback st.ipmicallback (Response.err "timeout")])
        ∧ ∀ p pt r,
            send_payload env (some p) pt r none
              { st with
                timeout := st.timeout + 1000
                incommand := false
                nowait := false }
            = some
              ({ st with
                  timeout := st.timeout + 1000
                  incommand := false
                  nowait := false
                  pendingpayloads := st.pendingpayloads ++ [(p, pt, r)] }, [])) := by
  constructor
  · intro hfalse
    unfold timedout
    rw [hfalse]
    simp
  · intro htrue hgt
    have hsome : st.lastpayload.isSome := by
      cases h : st.lastpayload with
      | none => rw [h] at htrue; simp [truthyList] at htrue
      | some l => simp
    constructor
    · unfold timedout
      rw [htrue]
      simp only [Bool.not_true, Bool.false_eq_true, if_false, if_neg]
      rw [if_pos hgt]
      simp
    · intro p pt r
      unfold send_payload
      rw [if_pos ⟨by simp, hsome⟩]
      simp

/-- C2 (witness): the amended theorem applied at the concrete
counterexample state. -/
theorem C2_timedout_expiry_witness :
    truthyList stC2.lastpayload = true
    ∧ (5000 : Int) < stC2.timeout + 1000
    ∧ timedout env0 stC2
      = some
        ({ stC2 with
            timeout := stC2.timeout + 1000
            incommand := false
            nowait := false },
         [Effect.invokeCallback stC2.ipmicallback (Response.err "timeout")]) :=
  ⟨by decide, by decide,
   ((C2_timedout_expiry env0 stC2).2 (by decide) (by decide)).1⟩

/-! ## Claim C3 — keepalive request -/

/-- C3 (counterexample): `_keepalive` on a session not in a command calls
`raw_command(netfn=6, command=1)`, whose `retry` parameter defaults to
`True` — not `retry=False` as claimed. -/
theorem C3_keepalive_retry_counterexample :
    keepalive { st0 with incommand := false }
      = some { netfn := 6, command := 1, data := [], retry := true }
    ∧ ({ netfn := 6, command := 1, data := [], retry := true } : RawCommandCall)
      ≠ { netfn := 6, command := 1, data := [], retry := false } :=
  ⟨rfl, by decide⟩

/-- C3 (amended): every session in the keepalive set whose deadline has
passed and which is not in a command gets a Get Device ID request
(netfn 6, cmd 1) issued with `retry=true` (the `raw_command` default); a
session in a command gets no request; and every request the sweep issues
is that one. -/
theorem C3_keepalive_issues_get_device_id (curtime deadline : Int)
    (entries : List (Int × SessionState)) (st : SessionState)
    (hmem : (deadline, st) ∈ entries) (hexp : deadline < curtime)
    (hcmd : st.incommand = false) :
    ({ netfn := 6, command := 1, data := [], retry := true } : RawCommandCall)
      ∈ keepaliveSweep curtime entries
    ∧ (∀ st' : SessionState, st'.incommand = true → keepalive st' = none)
    ∧ ∀ c ∈ keepaliveSweep curtime entries,
        c = { netfn := 6, command := 1, data := [], retry := true } := by
  refine ⟨?_, ?_, ?_⟩
  · induction entries with
    | nil => simp at hmem
    | cons e rest ih =>
        obtain ⟨d, s⟩ := e
        unfold keepaliveSweep
        by_cases hd : d < curtime
        · rw [if_pos hd]
          by_cases hic : s.incommand
          · have hk : keepalive s = none := by unfold keepalive; rw [if_pos hic]
            rw [hk]
            rcases List.mem_cons.mp hmem with heq | hrest
            · injection heq with h1 h2
              subst h1; subst h2
              rw [hcmd] at hic
              exact absurd hic (by simp)
            · exact ih hrest
          · have hk : keepalive s
                = some { netfn := 6, command := 1, data := [], retry := true } := by
              unfold keepalive; rw [if_neg hic]
            rw [hk]
            exact List.mem_cons_self _ _
        · rw [if_neg hd]
          rcases List.mem_cons.mp hmem with heq | hrest
          · injection heq with h1 h2
            subst h1; subst h2
            exact absurd hexp hd
          · exact ih hrest
  · intro st' h
    unfold keepalive
    rw [h]
    simp
  · clear hmem
    induction entries with
    | nil => intro c hc; simp [keepaliveSweep] at hc
    | cons e rest ih =>
        intro c hc
        unfold keepaliveSweep at hc
        obtain ⟨d, s⟩ := e
        by_cases hd : d < curtime
        · rw [if_pos hd] at hc
          unfold keepalive at hc
          by_cases hic : s.incommand
          · rw [if_pos hic] at hc
            exact ih c hc
          · rw [if_neg hic] at hc
            rcases List.mem_cons.mp hc with heq | htl
            · exact heq
            · exact ih c htl
        · rw [if_neg hd] at hc
          exact ih c hc

/-- C3 (witness): the amended theorem applied to a one-entry keepalive
set with an expired deadline. -/
theorem C3_keepalive_issues_get_device_id_witness :
    ((0 : Int), { st0 with incommand := false })
      ∈ [((0 : Int), { st0 with incommand := false })]
    ∧ (0 : Int) < 1
    ∧ ({ netfn := 6, command := 1, data := [], retry := true } : RawCommandCall)
        ∈ keepaliveSweep 1 [((0 : Int), { st0 with incommand := false })] :=
  ⟨List.mem_singleton.mpr rfl, by norm_num,
   (C3_keepalive_issues_get_device_id 1 0
     [((0 : Int), { st0 with incommand := false })]
     { st0 with incommand := false }
     (List.mem_singleton.mpr rfl) (by norm_num) rfl).1⟩

/-! ## Claim C9 — logout when not logged in -/

/-- C9: `logout` on a session with `logged = 0` reports
`{'success': True}` — returned when there is no callback, passed to the
callback otherwise — with no other effect (no packet, no state change). -/
theorem C9_logout_not_logged (hasCallback : Bool) (st : SessionState)
    (h : st.logged = false) :
    logout hasCallback st =
      (st,
       (if hasCallback then
          [Effect.invokeCallback (some Cb.userCb) Response.success] else []),
       (if hasCallback then none else some Response.success)) := by
  cases hasCallback <;> simp [logout, h]

/-- C9 (witness): the not-logged `logout`, both with and without a
callback, at the concrete baseline state. -/
theorem C9_logout_not_logged_witness :
    st0.logged = false
    ∧ logout false st0 = (st0, [], some Response.success)
    ∧ logout true st0
      = (st0, [Effect.invokeCallback (some Cb.userCb) Response.success], none) :=
  ⟨rfl, by simpa using C9_logout_not_logged false st0 rfl,
   by simpa using C9_logout_not_logged true st0 rfl⟩

/-! ## Dictionary and taboo-advance lemmas -/

/-- Dict lookup after assignment at the same key. -/
theorem tabooGet_tabooSet_self (k : Nat × Nat × Nat) (v : Int)
    (m : List ((Nat × Nat × Nat) × Int)) :
    tabooGet k (tabooSet k v m) = some v := by
  induction m with
  | nil => simp [tabooSet, tabooGet]
  | cons e rest ih =>
      obtain ⟨k', v'⟩ := e
      unfold tabooSet
      by_cases hk : k = k'
      · rw [if_pos hk]
        unfold tabooGet
        rw [if_pos rfl]
      · rw [if_neg hk]
        unfold tabooGet
        rw [if_neg hk]
        exact ih

/-- The taboo-skip loop advances `seqlun` by 4 (mod 256) at most `fuel`
times (`fuel = 7` at the call in `_make_ipmi_payload`). -/
theorem tabooAdvance_iterations (netfn command exp : Nat) :
    ∀ (fuel s : Nat) (t : List ((Nat × Nat × Nat) × Int)) (s' : Nat)
      (t' : List ((Nat × Nat × Nat) × Int)),
      tabooAdvance netfn command exp fuel s t = some (s', t') →
      ∃ k ≤ fuel, s' = (fun x => (x + 4) &&& 0xff)^[k] s := by
  intro fuel
  induction fuel with
  | zero =>
      intro s t s' t' h
      unfold tabooAdvance at h
      simp only [Option.some.injEq, Prod.mk.injEq] at h
      exact ⟨0, le_refl 0, h.1.symm⟩
  | succ n ih =>
      intro s t s' t' h
      unfold tabooAdvance at h
      split at h
      · simp only [Option.some.injEq, Prod.mk.injEq] at h
        exact ⟨0, Nat.zero_le _, h.1.symm⟩
      · split at h
        · simp only [Option.some.injEq, Prod.mk.injEq] at h
          exact ⟨0, Nat.zero_le _, h.1.symm⟩
        · split at h
          · simp at h
          · obtain ⟨k, hk, hs⟩ := ih _ _ _ _ h
            refine ⟨k + 1, Nat.succ_le_succ hk, ?_⟩
            rw [Function.iterate_succ_apply]
            exact hs

/-! ## State-preservation lemmas

The inbound-sequence fields `remsequencenumber` (IPMI 1.5) and
`remseqnumber` (RMCP+) are written only at the two check sites inside the
datagram handlers; every other embedded method leaves them unchanged.
The following lemmas record that, along with `tabooseq` preservation for
the transmit path. -/

theorem xmit_packet_pres (retry : Bool) (delay_xmit : Option Int)
    (packet : List Nat) (st st' : SessionState) (effs : List Effect)
    (h : xmit_packet retry delay_xmit packet st = some (st', effs)) :
    st'.remsequencenumber = st.remsequencenumber
    ∧ st'.remseqnumber = st.remseqnumber
    ∧ st'.tabooseq = st.tabooseq := by
  unfold xmit_packet at h
  simp only [] at h
  split at h
  · split at h
    · simp only [Option.some.injEq, Prod.mk.injEq] at h
      obtain ⟨h1, -⟩ := h
      subst h1
      split <;> simp
    · simp at h
  · simp only [Option.some.injEq, Prod.mk.injEq] at h
    obtain ⟨h1, -⟩ := h
    subst h1
    split <;> simp

theorem send_payload_pres (env : Env) (payload : Option (List Nat))
    (payload_type : Option Nat) (retry : Bool) (delay_xmit : Option Int)
    (st st' : SessionState) (effs : List Effect)
    (h : send_payload env payload payload_type retry delay_xmit st
      = some (st', effs)) :
    st'.remsequencenumber = st.remsequencenumber
    ∧ st'.remseqnumber = st.remseqnumber
    ∧ st'.tabooseq = st.tabooseq := by
  unfold send_payload at h
  split at h
  · simp only [Option.some.injEq, Prod.mk.injEq] at h
    obtain ⟨h1, -⟩ := h
    subst h1
    simp
  · simp only [] at h
    split at h
    · simp at h
    · split at h
      · simp at h
      · split at h
        · simp at h
        · rename_i st2 effs2 heqX
          simp only [Option.some.injEq, Prod.mk.injEq] at h
          obtain ⟨h1, -⟩ := h
          subst h1
          obtain ⟨e1, e2, e3⟩ := xmit_packet_pres _ _ _ _ _ _ heqX
          rw [e1, e2, e3]
          split <;> simp

theorem make_ipmi_payload_pres (netfn command : Nat) (data : List Nat)
    (st : SessionState) (pl : List Nat) (st' : SessionState)
    (h : make_ipmi_payload netfn command data st = some (pl, st')) :
    st'.remsequencenumber = st.remsequencenumber
    ∧ st'.remseqnumber = st.remseqnumber := by
  unfold make_ipmi_payload at h
  simp only [] at h
  split at h
  · simp at h
  · simp only [Option.some.injEq, Prod.mk.injEq] at h
    obtain ⟨-, h2⟩ := h
    subst h2
    simp

theorem send_ipmi_net_payload_pres (env : Env) (netfn command : Nat)
    (data : List Nat) (retry : Bool) (delay_xmit : Option Int)
    (st st' : SessionState) (effs : List Effect)
    (h : send_ipmi_net_payload env netfn command data retry delay_xmit st
      = some (st', effs)) :
    st'.remsequencenumber = st.remsequencenumber
    ∧ st'.remseqnumber = st.remseqnumber := by
  unfold send_ipmi_net_payload at h
  split at h
  · simp at h
  · rename_i pl st2 heqM
    obtain ⟨e1, e2⟩ := make_ipmi_payload_pres _ _ _ _ _ _ heqM
    obtain ⟨f1, f2, -⟩ := send_payload_pres _ _ _ _ _ _ _ _ h
    exact ⟨f1.trans e1, f2.trans e2⟩

theorem parse_ipmi_payload_pres (env : Env) (payload : List Nat)
    (st st' : SessionState) (effs : List Effect)
    (h : parse_ipmi_payload env payload st = some (st', effs)) :
    st'.remsequencenumber = st.remsequencenumber
    ∧ st'.remseqnumber = st.remseqnumber := by
  unfold parse_ipmi_payload at h
  split at h
  · simp only [Option.some.injEq, Prod.mk.injEq] at h
    obtain ⟨h1, -⟩ := h
    subst h1
    simp
  · simp only [] at h
    split at h
    · simp only [Option.some.injEq, Prod.mk.injEq] at h
      obtain ⟨h1, -⟩ := h
      subst h1
      split <;> simp
    · split at h
      · simp at h
      · rename_i st2 effs2 heqS
        simp only [Option.some.injEq, Prod.mk.injEq] at h
        obtain ⟨h1, -⟩ := h
        subst h1
        obtain ⟨f1, f2, -⟩ := send_payload_pres _ _ _ _ _ _ _ _ heqS
        rw [f1, f2]
        constructor <;> split <;> simp

theorem get_channel_auth_cap_pres (env : Env) (st st' : SessionState)
    (effs : List Effect)
    (h : get_channel_auth_cap env st = some (st', effs)) :
    st'.remsequencenumber = st.remsequencenumber
    ∧ st'.remseqnumber = st.remseqnumber := by
  unfold get_channel_auth_cap at h
  simp only [] at h
  split at h <;>
    · obtain ⟨f1, f2⟩ := send_ipmi_net_payload_pres _ _ _ _ _ _ _ _ _ h
      rw [f1, f2]
      simp

theorem relog_pres (env : Env) (st st' : SessionState) (effs : List Effect)
    (h : relog env st = some (st', effs)) :
    st'.remsequencenumber = st.remsequencenumber
    ∧ st'.remseqnumber = st.remseqnumber := by
  unfold relog at h
  simp only [] at h
  obtain ⟨f1, f2⟩ := get_channel_auth_cap_pres _ _ _ _ h
  rw [f1, f2]
  simp [initsession]

theorem open_rmcpplus_request_pres (env : Env) (st st' : SessionState)
    (effs : List Effect)
    (h : open_rmcpplus_request env st = some (st', effs)) :
    st'.remsequencenumber = st.remsequencenumber
    ∧ st'.remseqnumber = st.remseqnumber := by
  unfold open_rmcpplus_request at h
  simp only [] at h
  obtain ⟨f1, f2, -⟩ := send_payload_pres _ _ _ _ _ _ _ _ h
  rw [f1, f2]
  simp

theorem send_rakp1_pres (env : Env) (st st' : SessionState) (effs : List Effect)
    (h : send_rakp1 env st = some (st', effs)) :
    st'.remsequencenumber = st.remsequencenumber
    ∧ st'.remseqnumber = st.remseqnumber := by
  unfold send_rakp1 at h
  simp only [] at h
  obtain ⟨f1, f2, -⟩ := send_payload_pres _ _ _ _ _ _ _ _ h
  rw [f1, f2]
  simp

theorem send_rakp3_pres (env : Env) (st st' : SessionState) (effs : List Effect)
    (h : send_rakp3 env st = some (st', effs)) :
    st'.remsequencenumber = st.remsequencenumber
    ∧ st'.remseqnumber = st.remseqnumber := by
  unfold send_rakp3 at h
  simp only [] at h
  obtain ⟨f1, f2, -⟩ := send_payload_pres _ _ _ _ _ _ _ _ h
  rw [f1, f2]
  simp

theorem req_priv_level_pres (env : Env) (st st' : SessionState)
    (effs : List Effect)
    (h : req_priv_level env st = some (st', effs)) :
    st'.remsequencenumber = st.remsequencenumber
    ∧ st'.remseqnumber = st.remseqnumber := by
  unfold req_priv_level at h
  simp only [] at h
  obtain ⟨f1, f2⟩ := send_ipmi_net_payload_pres _ _ _ _ _ _ _ _ _ h
  rw [f1, f2]
  simp

theorem got_rmcp_response_pres (env : Env) (data : List Nat)
    (st st' : SessionState) (effs : List Effect)
    (h : got_rmcp_response env data st = some (st', effs)) :
    st'.remsequencenumber = st.remsequencenumber
    ∧ st'.remseqnumber = st.remseqnumber := by
  unfold got_rmcp_response at h
  split at h
  · simp only [Option.some.injEq, Prod.mk.injEq] at h
    obtain ⟨h1, -⟩ := h; subst h1; simp
  · split at h
    · simp only [Option.some.injEq, Prod.mk.injEq] at h
      obtain ⟨h1, -⟩ := h; subst h1; simp
    · split at h
      · simp only [Option.some.injEq, Prod.mk.injEq] at h
        obtain ⟨h1, -⟩ := h; subst h1; simp
      · simp only [] at h
        split at h
        · simp only [Option.some.injEq, Prod.mk.injEq] at h
          obtain ⟨h1, -⟩ := h; subst h1; simp
        · obtain ⟨f1, f2⟩ := send_rakp1_pres _ _ _ _ h
          rw [f1, f2]
          simp

theorem got_rakp2_pres (env : Env) (data : List Nat)
    (st st' : SessionState) (effs : List Effect)
    (h : got_rakp2 env data st = some (st', effs)) :
    st'.remsequencenumber = st.remsequencenumber
    ∧ st'.remseqnumber = st.remseqnumber := by
  unfold got_rakp2 at h
  split at h
  · simp only [Option.some.injEq, Prod.mk.injEq] at h
    obtain ⟨h1, -⟩ := h; subst h1; simp
  · split at h
    · simp only [Option.some.injEq, Prod.mk.injEq] at h
      obtain ⟨h1, -⟩ := h; subst h1; simp
    · split at h
      · split at h <;>
          · simp only [Option.some.injEq, Prod.mk.injEq] at h
            obtain ⟨h1, -⟩ := h; subst h1; simp
      · simp only [] at h
        split at h
        · simp only [Option.some.injEq, Prod.mk.injEq] at h
          obtain ⟨h1, -⟩ := h; subst h1; simp
        · split at h
          · simp only [Option.some.injEq, Prod.mk.injEq] at h
            obtain ⟨h1, -⟩ := h; subst h1; simp
          · obtain ⟨f1, f2⟩ := send_rakp3_pres _ _ _ _ h
            rw [f1, f2]
            simp

theorem got_rakp4_pres (env : Env) (data : List Nat)
    (st st' : SessionState) (effs : List Effect)
    (h : got_rakp4 env data st = some (st', effs)) :
    st'.remsequencenumber = st.remsequencenumber
    ∧ st'.remseqnumber = st.remseqnumber := by
  unfold got_rakp4 at h
  split at h
  · simp only [Option.some.injEq, Prod.mk.injEq] at h
    obtain ⟨h1, -⟩ := h; subst h1; simp
  · split at h
    · simp only [] at h
      split at h
      · simp at h
      · rename_i st2 effs2 heqStep
        have hstep : st2.remsequencenumber = st.remsequencenumber
            ∧ st2.remseqnumber = st.remseqnumber := by
          by_cases hc : data.getD 1 0 = 2 ∧ st.logontries ≠ 0
          · rw [if_pos hc] at heqStep
            exact relog_pres _ _ _ _ heqStep
          · rw [if_neg hc] at heqStep
            simp only [Option.some.injEq, Prod.mk.injEq] at heqStep
            obtain ⟨h1, -⟩ := heqStep; subst h1; exact ⟨rfl, rfl⟩
        split at h <;>
          · simp only [Option.some.injEq, Prod.mk.injEq] at h
            obtain ⟨h1, -⟩ := h; subst h1; exact hstep
    · simp only [] at h
      split at h
      · simp only [Option.some.injEq, Prod.mk.injEq] at h
        obtain ⟨h1, -⟩ := h; subst h1; simp
      · split at h
        · simp only [Option.some.injEq, Prod.mk.injEq] at h
          obtain ⟨h1, -⟩ := h; subst h1; simp
        · obtain ⟨f1, f2⟩ := req_priv_level_pres _ _ _ _ h
          rw [f1, f2]
          simp

/-! ## Claim C4 — the taboo map -/

/-- C4 (counterexample): after the matched reply of a retried
`(netfn=6, cmd=1)` request at `seqlun = 0`, the taboo map holds the
entry keyed `(7, 1, 0)` — `expectednetfn = request netfn + 1` — and no
entry at the claimed `(6, 1, 0)`; consequently a later
`_make_ipmi_payload` for the same `(netfn=6, cmd=1)` at `seqlun = 0`
finds no taboo entry and does not advance `seqlun` at all, contrary to
the claimed advance by 4. -/
theorem C4_taboo_key_counterexample :
    (parse_ipmi_payload env0 [129, 28, 0, 32, 0, 1, 0, 85] stC4).map
        (fun r => (tabooGet (7, 1, 0) r.1.tabooseq,
                   tabooGet (6, 1, 0) r.1.tabooseq))
      = some (some 16, none)
    ∧ (make_ipmi_payload 6 1 [] stC4taboo).map (fun r => r.2.seqlun)
      = some 0
    ∧ (0 : Nat) ≠ (0 + 4) &&& 0xff :=
  ⟨by decide, by decide, by decide⟩

/-- C4 (amended): the taboo entry recorded after a retried exchange is
keyed by the *expected response* netfn — `request netfn + 1` — together
with the command and the `seqlun` just used, with counter 16; the
build-time guard of `_make_ipmi_payload` looks the *request* netfn up,
so with no entry at `(netfn, cmd, seqlun)` the builder leaves `seqlun`
(and the taboo map) unchanged, and any advance it does perform moves
`seqlun` by 4 (mod 256) at most 7 times. -/
theorem C4_taboo_records_response_netfn :
    (∀ netfn command data st pl st',
        make_ipmi_payload netfn command data st = some (pl, st') →
        st'.expectednetfn = netfn + 1 ∧ st'.expectedcmd = command)
    ∧ (∀ env payload st st' effs,
        parse_ipmi_payload env payload st = some (st', effs) →
        payload.getD 4 0 = st.seqlun →
        payload.getD 1 0 >>> 2 = st.expectednetfn →
        payload.getD 5 0 = st.expectedcmd →
        st.hasretried = true →
        tabooGet (st.expectednetfn, st.expectedcmd, st.seqlun) st'.tabooseq
          = some 16)
    ∧ (∀ netfn command data st pl st',
        tabooGet (netfn, command, st.seqlun) st.tabooseq = none →
        make_ipmi_payload netfn command data st = some (pl, st') →
        st'.seqlun = st.seqlun ∧ st'.tabooseq = st.tabooseq)
    ∧ (∀ netfn command exp fuel s t s' t',
        tabooAdvance netfn command exp fuel s t = some (s', t') →
        ∃ k ≤ fuel, s' = (fun x => (x + 4) &&& 0xff)^[k] s) := by
  refine ⟨?_, ?_, ?_, ?_⟩
  · intro netfn command data st pl st' h
    unfold make_ipmi_payload at h
    simp only [] at h
    split at h
    · simp at h
    · simp only [Option.some.injEq, Prod.mk.injEq] at h
      obtain ⟨-, h2⟩ := h
      subst h2
      simp
  · intro env payload st st' effs h h4 h1 h5 hr
    unfold parse_ipmi_payload at h
    rw [if_neg (not_not_intro ⟨h4, h1, h5⟩)] at h
    simp only [hr, eq_self_iff_true, if_true] at h
    split at h
    · simp only [Option.some.injEq, Prod.mk.injEq] at h
      obtain ⟨h1', -⟩ := h
      subst h1'
      simp [tabooGet_tabooSet_self]
    · split at h
      · simp at h
      · rename_i st2 effs2 heqS
        simp only [Option.some.injEq, Prod.mk.injEq] at h
        obtain ⟨h1', -⟩ := h
        subst h1'
        obtain ⟨-, -, f3⟩ := send_payload_pres _ _ _ _ _ _ _ _ heqS
        simp only [f3]
        simp [tabooGet_tabooSet_self]
  · intro netfn command data st pl st' hget h
    unfold make_ipmi_payload at h
    simp only [] at h
    split at h
    · simp at h
    · rename_i seqlun' taboo' heqA
      unfold tabooAdvance at heqA
      rw [hget] at heqA
      simp only [Option.some.injEq, Prod.mk.injEq] at heqA
      obtain ⟨hs, ht⟩ := heqA
      simp only [Option.some.injEq, Prod.mk.injEq] at h
      obtain ⟨-, h2⟩ := h
      subst h2
      simp [hs.symm, ht.symm]
  · intro netfn command exp fuel s t s' t' h
    exact tabooAdvance_iterations netfn command exp fuel s t s' t' h

theorem sol_rx_pres (env : Env) (payload : List Nat)
    (st st' : SessionState) (effs : List Effect)
    (h : sol_rx env payload st = some (st', effs)) :
    st'.remsequencenumber = st.remsequencenumber
    ∧ st'.remseqnumber = st.remseqnumber := by
  unfold sol_rx at h
  simp only [] at h
  split at h
  · simp at h
  · rename_i st2 effs2 heqStep
    have hfin : st' = st2 := by
      split at h <;>
        · simp only [Option.some.injEq, Prod.mk.injEq] at h
          exact h.1.symm
    subst hfin
    split at heqStep
    · split at heqStep
      · simp only [Option.some.injEq, Prod.mk.injEq] at heqStep
        obtain ⟨h1, -⟩ := heqStep
        subst h1
        simp
      · split at heqStep
        · simp at heqStep
        · rename_i st3 effs3 heqS
          simp only [Option.some.injEq, Prod.mk.injEq] at heqStep
          obtain ⟨h1, -⟩ := heqStep
          subst h1
          obtain ⟨f1, f2, -⟩ := send_payload_pres _ _ _ _ _ _ _ _ heqS
          rw [f1, f2]
          simp
    · simp only [Option.some.injEq, Prod.mk.injEq] at heqStep
      obtain ⟨h1, -⟩ := heqStep
      subst h1
      simp

theorem handle_ipmi2_packet_pres15 (env : Env) (data : List Nat)
    (st st' : SessionState) (effs : List Effect)
    (h : handle_ipmi2_packet env data st = some (st', effs)) :
    st'.remsequencenumber = st.remsequencenumber := by
  unfold handle_ipmi2_packet at h
  split at h
  · exact (got_rmcp_response_pres _ _ _ _ _ h).1
  · split at h
    · exact (got_rakp2_pres _ _ _ _ _ h).1
    · split at h
      · exact (got_rakp4_pres _ _ _ _ _ h).1
      · split at h
        · split at h
          · simp only [Option.some.injEq, Prod.mk.injEq] at h
            obtain ⟨h1, -⟩ := h; subst h1; rfl
          · split at h
            · simp only [Option.some.injEq, Prod.mk.injEq] at h
              obtain ⟨h1, -⟩ := h; subst h1; rfl
            · split at h
              · simp only [Option.some.injEq, Prod.mk.injEq] at h
                obtain ⟨h1, -⟩ := h; subst h1; rfl
              · split at h
                · simp only [Option.some.injEq, Prod.mk.injEq] at h
                  obtain ⟨h1, -⟩ := h; subst h1; rfl
                · simp only [] at h
                  split at h
                  · exact (parse_ipmi_payload_pres _ _ _ _ _ h).1.trans
                      (by simp)
                  · exact (sol_rx_pres _ _ _ _ _ h).1.trans (by simp)
        · simp only [Option.some.injEq, Prod.mk.injEq] at h
          obtain ⟨h1, -⟩ := h; subst h1; rfl

theorem handle_ipmi15_checked_pres (env : Env) (data : List Nat)
    (st st' : SessionState) (effs : List Effect)
    (h : handle_ipmi15_checked env data st = some (st', effs)) :
    st'.remsequencenumber = st.remsequencenumber
    ∧ st'.remseqnumber = st.remseqnumber := by
  unfold handle_ipmi15_checked at h
  split at h
  · simp only [Option.some.injEq, Prod.mk.injEq] at h
    obtain ⟨h1, -⟩ := h; subst h1; exact ⟨rfl, rfl⟩
  · split at h
    · simp only [Option.some.injEq, Prod.mk.injEq] at h
      obtain ⟨h1, -⟩ := h; subst h1; exact ⟨rfl, rfl⟩
    · split at h
      · split at h
        · simp at h
        · split at h
          · simp only [Option.some.injEq, Prod.mk.injEq] at h
            obtain ⟨h1, -⟩ := h; subst h1; exact ⟨rfl, rfl⟩
          · exact parse_ipmi_payload_pres _ _ _ _ _ h
      · exact parse_ipmi_payload_pres _ _ _ _ _ h

/-- The IPMI 1.5 suite never lowers the stored remote sequence number. -/
theorem handle_ipmi15_monotone (env : Env) (data : List Nat)
    (st st' : SessionState) (effs : List Effect) (old new : Nat)
    (h : handle_ipmi15 env data st = some (st', effs))
    (hold : st.remsequencenumber = some old)
    (hnew : st'.remsequencenumber = some new) :
    old ≤ new := by
  unfold handle_ipmi15 at h
  split at h
  · simp only [Option.some.injEq, Prod.mk.injEq] at h
    obtain ⟨h1, -⟩ := h; subst h1
    rw [hold] at hnew
    simp only [Option.some.injEq] at hnew
    omega
  · rename_i hguard
    rw [hold] at hguard
    simp only [decide_eq_true_eq] at hguard
    have hmid := (handle_ipmi15_checked_pres _ _ _ _ _ h).1
    rw [hmid] at hnew
    simp only [Option.some.injEq] at hnew
    omega

theorem handle_ipmi_routed_monotone (env : Env) (data : List Nat)
    (st st' : SessionState) (effs : List Effect) (old new : Nat)
    (h : handle_ipmi_routed env data st = some (st', effs))
    (hold : st.remsequencenumber = some old)
    (hnew : st'.remsequencenumber = some new) :
    old ≤ new := by
  unfold handle_ipmi_routed at h
  split at h
  · exact handle_ipmi15_monotone _ _ _ _ _ _ _ h hold hnew
  · split at h
    · rw [handle_ipmi2_packet_pres15 _ _ _ _ _ h, hold] at hnew
      simp only [Option.some.injEq] at hnew
      omega
    · simp only [Option.some.injEq, Prod.mk.injEq] at h
      obtain ⟨h1, -⟩ := h; subst h1
      rw [hold] at hnew
      simp only [Option.some.injEq] at hnew
      omega

/-! ## Claim C5 — RMCP+ drop without side effects -/

/-- C5: an inbound RMCP+ datagram carrying an IPMI or SOL payload (type 0
or 1) whose mutual-auth bit is clear, or whose trailing HMAC-SHA1-96 over
bytes `4 … −12` under `K1` mismatches, or whose session id differs from
`localsid`, is discarded: the handler returns the state unchanged (every
field, in particular `remseqnumber`, `lastpayload`, the pending queue,
and `incommand`) and performs no effect. -/
theorem C5_rmcpplus_drop_no_side_effects (env : Env) (data : List Nat)
    (st : SessionState)
    (hp : data.getD 5 0 &&& 0b00111111 = 0 ∨ data.getD 5 0 &&& 0b00111111 = 1)
    (hfail :
      data.getD 5 0 &&& 0b01000000 = 0
      ∨ data.drop (data.length - 12)
          ≠ (env.hmac st.k1 ((data.take (data.length - 12)).drop 4)).take 12
      ∨ unle32 data 6 ≠ st.localsid) :
    handle_ipmi2_packet env data st = some (st, []) := by
  unfold handle_ipmi2_packet
  rw [if_neg (by rcases hp with h | h <;> omega)]
  rw [if_neg (by rcases hp with h | h <;> omega)]
  rw [if_neg (by rcases hp with h | h <;> omega)]
  rw [if_pos hp]
  by_cases hb6 : data.getD 5 0 &&& 0b01000000 = 0
  · rw [if_pos hb6]
  · rw [if_neg hb6]
    by_cases hhm : data.drop (data.length - 12)
        ≠ (env.hmac st.k1 ((data.take (data.length - 12)).drop 4)).take 12
    · rw [if_pos hhm]
    · rw [if_neg hhm]
      rcases hfail with hb | hh | hs
      · exact absurd hb hb6
      · exact absurd hh hhm
      · rw [if_pos hs]

/-- C5 (witness): a 6-byte datagram whose payload-type byte is 0 (IPMI
payload, mutual-auth bit clear) is dropped with no state change. -/
theorem C5_rmcpplus_drop_witness :
    (([6, 0, 255, 7, 6, 0] : List Nat).getD 5 0 &&& 0b00111111 = 0
      ∨ ([6, 0, 255, 7, 6, 0] : List Nat).getD 5 0 &&& 0b00111111 = 1)
    ∧ ([6, 0, 255, 7, 6, 0] : List Nat).getD 5 0 &&& 0b01000000 = 0
    ∧ handle_ipmi2_packet env0 [6, 0, 255, 7, 6, 0] st0 = some (st0, []) :=
  ⟨Or.inl (by decide), by decide,
   C5_rmcpplus_drop_no_side_effects env0 [6, 0, 255, 7, 6, 0] st0
     (Or.inl (by decide)) (Or.inl (by decide))⟩

/-! ## Claim C6 — monotone inbound sequence numbers -/

/-- C6: within a session the stored remote sequence numbers never
decrease across inbound datagram processing — in the IPMI 1.5 path
(`remsequencenumber`) with no exception, and in the RMCP+ path
(`remseqnumber`) with the single exception of a stored value
`0xffffffff`, at which a datagram passing the other checks is accepted
and the stored value updated to its (possibly lower) sequence number. -/
theorem C6_remote_sequence_monotone :
    (∀ env data sockaddr st st' effs old new,
        handle_ipmi_packet env data sockaddr st = some (st', effs) →
        st.remsequencenumber = some old →
        st'.remsequencenumber = some new →
        old ≤ new)
    ∧ (∀ env data st st' effs old new,
        handle_ipmi2_packet env data st = some (st', effs) →
        st.remseqnumber = some old →
        st'.remseqnumber = some new →
        old ≤ new ∨ old = 0xffffffff)
    ∧ (∀ env data st st' effs,
        (data.getD 5 0 &&& 0b00111111 = 0
          ∨ data.getD 5 0 &&& 0b00111111 = 1) →
        data.getD 5 0 &&& 0b01000000 ≠ 0 →
        data.drop (data.length - 12)
          = (env.hmac st.k1 ((data.take (data.length - 12)).drop 4)).take 12 →
        unle32 data 6 = st.localsid →
        st.remseqnumber = some 0xffffffff →
        handle_ipmi2_packet env data st = some (st', effs) →
        st'.remseqnumber = some (unle32 data 10)) := by
  refine ⟨?_, ?_, ?_⟩
  · intro env data sockaddr st st' effs old new h hold hnew
    unfold handle_ipmi_packet at h
    split at h
    · simp only [Option.some.injEq, Prod.mk.injEq] at h
      obtain ⟨h1, -⟩ := h; subst h1
      rw [hold] at hnew
      simp only [Option.some.injEq] at hnew
      omega
    · split at h
      · exact handle_ipmi_routed_monotone _ _ _ _ _ _ _ h
          (by simpa using hold) hnew
      · exact handle_ipmi_routed_monotone _ _ _ _ _ _ _ h hold hnew
  · intro env data st st' effs old new h hold hnew
    unfold handle_ipmi2_packet at h
    split at h
    · left
      rw [(got_rmcp_response_pres _ _ _ _ _ h).2, hold] at hnew
      simp only [Option.some.injEq] at hnew
      omega
    · split at h
      · left
        rw [(got_rakp2_pres _ _ _ _ _ h).2, hold] at hnew
        simp only [Option.some.injEq] at hnew
        omega
      · split at h
        · left
          rw [(got_rakp4_pres _ _ _ _ _ h).2, hold] at hnew
          simp only [Option.some.injEq] at hnew
          omega
        · split at h
          · split at h
            · left
              simp only [Option.some.injEq, Prod.mk.injEq] at h
              obtain ⟨h1, -⟩ := h; subst h1
              rw [hold] at hnew
              simp only [Option.some.injEq] at hnew
              omega
            · split at h
              · left
                simp only [Option.some.injEq, Prod.mk.injEq] at h
                obtain ⟨h1, -⟩ := h; subst h1
                rw [hold] at hnew
                simp only [Option.some.injEq] at hnew
                omega
              · split at h
                · left
                  simp only [Option.some.injEq, Prod.mk.injEq] at h
                  obtain ⟨h1, -⟩ := h; subst h1
                  rw [hold] at hnew
                  simp only [Option.some.injEq] at hnew
                  omega
                · split at h
                  · left
                    simp only [Option.some.injEq, Prod.mk.injEq] at h
                    obtain ⟨h1, -⟩ := h; subst h1
                    rw [hold] at hnew
                    simp only [Option.some.injEq] at hnew
                    omega
                  · rename_i hguard
                    rw [hold] at hguard
                    simp only [Bool.and_eq_true, decide_eq_true_eq,
                      not_and] at hguard
                    have hmono : old ≤ unle32 data 10 ∨ old = 0xffffffff := by
                      by_cases hlt : unle32 data 10 < old
                      · by_cases hmax : old = 0xffffffff
                        · right; exact hmax
                        · exact absurd hmax (by simpa [hlt] using hguard)
                      · left; omega
                    simp only [] at h
                    have hpres : st'.remseqnumber = some (unle32 data 10) := by
                      split at h
                      · exact (parse_ipmi_payload_pres _ _ _ _ _ h).2.trans
                          (by simp)
                      · exact (sol_rx_pres _ _ _ _ _ h).2.trans (by simp)
                    rw [hpres] at hnew
                    simp only [Option.some.injEq] at hnew
                    subst hnew
                    exact hmono
          · left
            simp only [Option.some.injEq, Prod.mk.injEq] at h
            obtain ⟨h1, -⟩ := h; subst h1
            rw [hold] at hnew
            simp only [Option.some.injEq] at hnew
            omega
  · intro env data st st' effs hp hb6 hhm hsid hmax h
    unfold handle_ipmi2_packet at h
    rw [if_neg (by rcases hp with hq | hq <;> omega)] at h
    rw [if_neg (by rcases hp with hq | hq <;> omega)] at h
    rw [if_neg (by rcases hp with hq | hq <;> omega)] at h
    rw [if_pos hp, if_neg hb6, if_neg (not_not_intro hhm),
        if_neg (not_not_intro hsid), hmax] at h
    rw [if_neg (by simp)] at h
    simp only [] at h
    split at h
    · exact (parse_ipmi_payload_pres _ _ _ _ _ h).2.trans (by simp)
    · exact (sol_rx_pres _ _ _ _ _ h).2.trans (by simp)

/-- C4 (witness): building a `(netfn=6, cmd=1)` payload at the baseline
state sets `expectednetfn` to `6 + 1`. -/
theorem C4_taboo_records_response_netfn_witness :
    make_ipmi_payload 6 1 [] st0
      = some ([32, 24, 200, 129, 0, 1, 126],
        { st0 with expectednetfn := 7, expectedcmd := 1 })
    ∧ ({ st0 with expectednetfn := 7, expectedcmd := 1 } : SessionState).expectednetfn
        = 6 + 1 :=
  ⟨by decide,
   (C4_taboo_records_response_netfn.1 6 1 [] st0
     [32, 24, 200, 129, 0, 1, 126]
     { st0 with expectednetfn := 7, expectedcmd := 1 } (by decide)).1⟩

/-- C6 (witness): an IPMI 1.5 datagram with sequence number 7 processed at
stored sequence number 3 updates the store, and the theorem yields
`3 ≤ 7`. -/
theorem C6_remote_sequence_monotone_witness :
    handle_ipmi_packet env0 dataC6 none stC6
      = some ({ st0 with remsequencenumber := some 7 }, [])
    ∧ stC6.remsequencenumber = some 3
    ∧ ({ st0 with remsequencenumber := some 7 } : SessionState).remsequencenumber
        = some 7
    ∧ 3 ≤ 7 :=
  ⟨by decide, by decide, by decide,
   C6_remote_sequence_monotone.1 env0 dataC6 none stC6
     { st0 with remsequencenumber := some 7 } [] 3 7 (by decide) (by decide)
     (by decide)⟩

/-! ## Claim C7 — one in-flight request per session -/

/-- `_xmit_packet` without `delay_xmit` always transmits, and only bumps
the outbound sequence number. -/
theorem xmit_packet_delay_none (retry : Bool) (packet : List Nat)
    (st st' : SessionState) (effs : List Effect)
    (h : xmit_packet retry none packet st = some (st', effs)) :
    st'.pendingpayloads = st.pendingpayloads
    ∧ Effect.transmit packet ∈ effs := by
  unfold xmit_packet at h
  simp only [] at h
  simp only [Option.some.injEq, Prod.mk.injEq] at h
  obtain ⟨h1, h2⟩ := h
  subst h1
  subst h2
  constructor
  · split <;> simp
  · simp

/-- `send_payload` with a fresh payload and no outstanding one neither
touches the pending queue nor skips the transmit. -/
theorem send_payload_transmits (env : Env) (p : List Nat) (pt : Option Nat)
    (r : Bool) (st st' : SessionState) (effs : List Effect)
    (hl : st.lastpayload = none)
    (h : send_payload env (some p) pt r none st = some (st', effs)) :
    st'.pendingpayloads = st.pendingpayloads
    ∧ ∃ pkt, Effect.transmit pkt ∈ effs := by
  unfold send_payload at h
  rw [if_neg (by simp [hl])] at h
  simp only [] at h
  split at h
  · simp at h
  · rename_i pay heqPay
    split at h
    · simp at h
    · rename_i netpacket heqA
      split at h
      · simp at h
      · rename_i st2 effs2 heqX
        simp only [Option.some.injEq, Prod.mk.injEq] at h
        obtain ⟨h1, h2⟩ := h
        subst h1
        subst h2
        obtain ⟨f1, f2⟩ := xmit_packet_delay_none _ _ _ _ _ heqX
        refine ⟨f1.trans ?_, netpacket, by simp [f2]⟩
        split <;> simp

/-- Key membership after a `dictSet`. -/
theorem dictSet_mem_keys {V : Type} (k : Nat) (v : V) :
    ∀ (m : List (Nat × V)) (a : Nat),
      a ∈ (dictSet k v m).map Prod.fst → a = k ∨ a ∈ m.map Prod.fst := by
  intro m
  induction m with
  | nil => intro a ha; simpa [dictSet] using ha
  | cons e rest ih =>
      obtain ⟨k', v'⟩ := e
      intro a ha
      unfold dictSet at ha
      by_cases hk : k = k'
      · rw [if_pos hk] at ha
        simp only [List.map_cons, List.mem_cons] at ha
        rcases ha with ha | ha
        · exact Or.inl ha
        · exact Or.inr (by simp [ha])
      · rw [if_neg hk] at ha
        simp only [List.map_cons, List.mem_cons] at ha
        rcases ha with ha | ha
        · exact Or.inr (by simp [ha])
        · rcases ih a ha with ha' | ha'
          · exact Or.inl ha'
          · exact Or.inr (by simp [ha'])

/-- C7: at most one in-flight request per session.  (1) `send_payload`
invoked with a new payload while `lastpayload` is set queues the triple
and transmits nothing — the state is unchanged except for the appended
queue entry and no effect is produced.  (2) When a reply is parsed with a
queued payload present, the queue head is removed and a packet for it is
transmitted — a queued payload goes out only at completion of the
outstanding one.  (3) Installing a session in the `waiting_sessions` dict
keeps its keys unique, so a session occurs at most once in the waiting
set. -/
theorem C7_single_inflight :
    (∀ env p pt r st l,
        st.lastpayload = some l →
        send_payload env (some p) pt r none st
          = some ({ st with
              pendingpayloads := st.pendingpayloads ++ [(p, pt, r)] }, []))
    ∧ (∀ env payload st st' effs q qt qr rest,
        parse_ipmi_payload env payload st = some (st', effs) →
        payload.getD 4 0 = st.seqlun →
        payload.getD 1 0 >>> 2 = st.expectednetfn →
        payload.getD 5 0 = st.expectedcmd →
        st.pendingpayloads = (q, qt, qr) :: rest →
        st'.pendingpayloads = rest ∧ ∃ pkt, Effect.transmit pkt ∈ effs)
    ∧ (∀ (V : Type) (k : Nat) (v : V) (m : List (Nat × V)),
        (m.map Prod.fst).Nodup → ((dictSet k v m).map Prod.fst).Nodup) := by
  refine ⟨?_, ?_, ?_⟩
  · intro env p pt r st l hl
    unfold send_payload
    rw [if_pos ⟨by simp, by rw [hl]; simp⟩]
    simp
  · intro env payload st st' effs q qt qr rest h h4 h1 h5 hpend
    unfold parse_ipmi_payload at h
    rw [if_neg (not_not_intro ⟨h4, h1, h5⟩)] at h
    by_cases hhr : st.hasretried <;>
      [simp only [hhr, eq_self_iff_true, if_true] at h;
       simp only [hhr, Bool.false_eq_true, if_false] at h] <;>
      · split at h
        · rename_i heq
          simp only [hpend] at heq
          exact absurd heq (by simp)
        · rename_i np nt nr rest' heq
          simp only [hpend, List.cons.injEq, Prod.mk.injEq] at heq
          obtain ⟨⟨hq, hqt, hqr⟩, hrest⟩ := heq
          subst hq; subst hqt; subst hqr; subst hrest
          split at h
          · simp at h
          · rename_i st2 effs2 heqS
            simp only [Option.some.injEq, Prod.mk.injEq] at h
            obtain ⟨h1', h2'⟩ := h
            subst h1'
            subst h2'
            obtain ⟨f1, ⟨pkt, hpkt⟩⟩ :=
              send_payload_transmits _ _ _ _ _ _ _ rfl heqS
            refine ⟨by simpa using f1, pkt, ?_⟩
            simp [hpkt]
  · intro V k v m hnd
    induction m with
    | nil => simp [dictSet]
    | cons e rest ih =>
        obtain ⟨k', v'⟩ := e
        unfold dictSet
        by_cases hk : k = k'
        · rw [if_pos hk]
          subst hk
          simpa using hnd
        · rw [if_neg hk]
          simp only [List.map_cons, List.nodup_cons] at hnd ⊢
          obtain ⟨hnotin, hrest⟩ := hnd
          refine ⟨?_, ih hrest⟩
          intro hmem
          rcases dictSet_mem_keys k v rest k' hmem with heq | hmem'
          · exact hk heq.symm
          · exact hnotin hmem'

/-- C7 (witness): part (1) at a concrete state with an outstanding
payload. -/
theorem C7_single_inflight_witness :
    ({ st0 with lastpayload := some [2] } : SessionState).lastpayload = some [2]
    ∧ send_payload env0 (some [9]) (some 0) true none
        { st0 with lastpayload := some [2] }
      = some ({ st0 with
          lastpayload := some [2]
          pendingpayloads := [([9], some 0, true)] }, []) :=
  ⟨rfl, by
    simpa using C7_single_inflight.1 env0 [9] (some 0) true
      { st0 with lastpayload := some [2] } [2] rfl⟩

/-! ## Claim C8 — FAILED sessions -/

/-- C8 (counterexample): a FAILED session with a truthy `lastpayload` and
accumulated timeout 5 s: the expiry pushes the timeout past 5 and invokes
the session's callback with `{'error': 'timeout'}` — in `_timedout` the
timeout>5 branch runs *before* the FAILED check, so the callback of a
FAILED session is invoked, contradicting "no command callback of that
session is ever invoked". -/
theorem C8_failed_callback_counterexample :
    stC8.sessioncontext = some "FAILED"
    ∧ timedout env0 stC8
      = some
        ({ stC8 with timeout := 6000, incommand := false, nowait := false },
         [Effect.invokeCallback (some Cb.gotChannelAuthCap)
           (Response.err "timeout")]) :=
  ⟨rfl, by decide⟩

/-- C8 (amended): a FAILED session's retry-timer expiry never retransmits
`lastpayload` — no transmit and no waiting-set registration is ever
produced — and invokes no callback while the accumulated timeout stays at
or below 5 s; but once the incremented timeout exceeds 5, the
timeout branch (checked before the FAILED check) still invokes the
session callback with `{'error': 'timeout'}`. -/
theorem C8_failed_never_retransmits (env : Env) (st : SessionState)
    (hf : st.sessioncontext = some "FAILED") :
    (∀ st' effs, timedout env st = some (st', effs) →
        (∀ pkt, Effect.transmit pkt ∉ effs)
        ∧ (∀ d, Effect.addWaiting d ∉ effs))
    ∧ (truthyList st.lastpayload = true → st.timeout + 1000 ≤ 5000 →
        timedout env st
          = some ({ st with nowait := false, timeout := st.timeout + 1000 },
              [])) := by
  constructor
  · intro st' effs h
    unfold timedout at h
    by_cases ht : truthyList st.lastpayload = true
    · rw [if_neg (not_not_intro ht)] at h
      simp only [] at h
      by_cases hgt : 5000 < st.timeout + 1000
      · rw [if_pos hgt] at h
        simp only [Option.some.injEq, Prod.mk.injEq] at h
        obtain ⟨-, h2⟩ := h
        subst h2
        simp
      · rw [if_neg hgt, if_pos hf] at h
        simp only [Option.some.injEq, Prod.mk.injEq] at h
        obtain ⟨-, h2⟩ := h
        subst h2
        simp
    · rw [if_pos ht] at h
      simp only [Option.some.injEq, Prod.mk.injEq] at h
      obtain ⟨-, h2⟩ := h
      subst h2
      simp
  · intro htrue hle
    unfold timedout
    rw [if_neg (not_not_intro htrue)]
    simp only []
    rw [if_neg (by omega), if_pos hf]

/-- C8 (witness): the amended theorem at a concrete FAILED session whose
timeout has not yet exceeded 5 s: the expiry does nothing but bump the
timeout. -/
theorem C8_failed_never_retransmits_witness :
    ({ stC8 with timeout := 500 } : SessionState).sessioncontext
        = some "FAILED"
    ∧ truthyList ({ stC8 with timeout := 500 } : SessionState).lastpayload
        = true
    ∧ ({ stC8 with timeout := 500 } : SessionState).timeout + 1000 ≤ 5000
    ∧ timedout env0 { stC8 with timeout := 500 }
      = some ({ stC8 with timeout := 1500, nowait := false }, []) :=
  ⟨rfl, by decide, by decide, by
    simpa using (C8_failed_never_retransmits env0 { stC8 with timeout := 500 }
      rfl).2 (by decide) (by decide)⟩

/-! ## Claim C10 — 1.5 path mutates before checking -/

/-- C10: in the IPMI 1.5 inbound path, once the sequence check passes the
handler records the datagram's sequence number *before* the authtype,
session-id, and MD5 auth-code checks run: (1) any accepted-sequence
datagram leaves `remsequencenumber` equal to the datagram's value,
whatever happens afterwards; (2) in particular a datagram dropped by the
authtype check still mutates `remsequencenumber` (and nothing else); (3)
by contrast, the RMCP+ path discards a datagram failing its checks with
no mutation at all. -/
theorem C10_remseq_updated_before_checks :
    (∀ env data st st' effs,
        handle_ipmi15 env data st = some (st', effs) →
        (match st.remsequencenumber with
          | some old => decide (unle32 data 5 < old)
          | none => false) = false →
        st'.remsequencenumber = some (unle32 data 5))
    ∧ (∀ env data st,
        data.getD 4 0 ≠ st.authtype →
        (match st.remsequencenumber with
          | some old => decide (unle32 data 5 < old)
          | none => false) = false →
        handle_ipmi15 env data st
          = some ({ st with remsequencenumber := some (unle32 data 5) }, []))
    ∧ (∀ env data st,
        (data.getD 5 0 &&& 0b00111111 = 0
          ∨ data.getD 5 0 &&& 0b00111111 = 1) →
        data.getD 5 0 &&& 0b01000000 = 0 →
        handle_ipmi2_packet env data st = some (st, [])) := by
  refine ⟨?_, ?_, ?_⟩
  · intro env data st st' effs h hguard
    unfold handle_ipmi15 at h
    rw [if_neg (by simp [hguard])] at h
    exact (handle_ipmi15_checked_pres _ _ _ _ _ h).1.trans (by simp)
  · intro env data st hauth hguard
    unfold handle_ipmi15
    rw [if_neg (by simp [hguard])]
    unfold handle_ipmi15_checked
    rw [if_pos (by simpa using hauth)]
  · intro env data st hp hb6
    unfold handle_ipmi2_packet
    rw [if_neg (by rcases hp with h | h <;> omega)]
    rw [if_neg (by rcases hp with h | h <;> omega)]
    rw [if_neg (by rcases hp with h | h <;> omega)]
    rw [if_pos hp, if_pos hb6]

/-- C10 (witness): an authtype-0 datagram with sequence number 7 hitting
a session negotiated to MD5 (authtype 2) with stored sequence number 3:
dropped, but `remsequencenumber` is now 7. -/
theorem C10_remseq_updated_before_checks_witness :
    ([6, 0, 255, 7, 0, 7, 0, 0, 0, 0, 0, 0, 0] : List Nat).getD 4 0
        ≠ ({ st0 with authtype := 2, remsequencenumber := some 3 }
            : SessionState).authtype
    ∧ handle_ipmi15 env0 [6, 0, 255, 7, 0, 7, 0, 0, 0, 0, 0, 0, 0]
        { st0 with authtype := 2, remsequencenumber := some 3 }
      = some ({ st0 with authtype := 2, remsequencenumber := some 7 }, []) :=
  ⟨by decide, by
    simpa using C10_remseq_updated_before_checks.2.1 env0
      [6, 0, 255, 7, 0, 7, 0, 0, 0, 0, 0, 0, 0]
      { st0 with authtype := 2, remsequencenumber := some 3 }
      (by decide) (by decide)⟩

end Pyghmi
